import Mathlib

/-!
Verification development for the diagnosis-quiz-tool repository.

This file gives a shallow embedding, in Lean 4, of the three core modules of
the repository (`src/modules/quiz_generator.py`, `src/modules/scoring.py`,
`src/modules/progression.py`) together with the configuration clamping done in
the REST wrapper (`src/api/quiz.py`), and proves or refutes the frozen claims
about them.

Modelling conventions:
* Python's process-wide `random` module is modelled by an explicit generator
  state (`Rng`) threaded through the computation in the same call order as the
  source.  The generator is an abstract deterministic pseudo-random stream (a
  linear congruential step); the source's Mersenne-Twister is abstracted, but
  every random draw site of the source corresponds to exactly one draw here,
  in the same order, so determinism and structural properties are preserved.
* Python `int` is modelled by `Int` (or `Nat` for values that are counts),
  Python `float` scores and multipliers by `ℚ`.  The source's
  `int(100 * 1.5 ** (level - 1))` is modelled by the exact rational floor
  `(100 * 3 ^ (level - 1)) / 2 ^ (level - 1)`; IEEE doubles represent
  `100 * 1.5 ** k` exactly for every level reachable in practice (all
  `level ≤ 31`), where the two coincide.
* `datetime.now()` values are passed in as explicit parameters (an ISO string
  for timestamps, a day ordinal for calendar-day arithmetic).
* Recursions that Python realises by unbounded loops or by mutual recursion
  (`add_xp` / `award_achievement`) are realised with structural fuel; the fuel
  bounds used are provably sufficient (the achievement cascade can nest at
  most once per level-milestone achievement, of which there are three).
-/

/-! ## Pseudo-random generator -/

/-- Explicit random-generator state standing for Python's process-wide
`random` module state. -/
structure Rng where
  state : Nat
deriving DecidableEq

/-- One step of the generator: returns a fresh pseudo-random `Nat` and the
next state (a standard linear congruential step; stands in for the source's
Mersenne Twister stream). -/
def Rng.next (r : Rng) : Nat × Rng :=
  let s := (r.state * 1103515245 + 12345) % 2 ^ 31
  (s, ⟨s⟩)

/-- `random.seed(n)`: the generator state determined by a seed. -/
def mkRng (seed : Nat) : Rng := ⟨(seed * 2654435761 + 1013904223) % 2 ^ 31⟩

/-- A pseudo-random index below `n` (callers ensure `0 < n`). -/
def Rng.randBelow (r : Rng) (n : Nat) : Nat × Rng :=
  (r.next.1 % n, r.next.2)

/-- `random.random() < 0.3`: a 30%-probability draw, consuming one step. -/
def Rng.draw30 (r : Rng) : Bool × Rng :=
  (r.next.1 % 10 < 3, r.next.2)

/-! ## Shuffling and sampling

`random.shuffle` and `random.sample` are modelled by repeated extraction at a
pseudo-random index.  Both are structurally recursive on explicit fuel equal
to the number of elements to move, so that closed instances evaluate in the
kernel. -/

/-- Remove the element at index `i` (take/drop form, to ease the permutation
proof). -/
def removeAt (l : List α) (i : Nat) : List α :=
  l.take i ++ l.drop (i + 1)

/-- Extraction loop shared by `random.shuffle` and `random.sample`: `fuel`
rounds of "pick a random index, move that element to the front of the
output". -/
def shuffleGo : Nat → List α → Rng → List α × Rng
  | 0, _, r => ([], r)
  | _ + 1, [], r => ([], r)
  | fuel + 1, a :: t, r =>
    let i := (r.randBelow (a :: t).length).1
    let r1 := (r.randBelow (a :: t).length).2
    let rest := shuffleGo fuel (removeAt (a :: t) i) r1
    ((a :: t).getD i a :: rest.1, rest.2)

/-- Model of `random.shuffle` (returning the permuted list): every element is
moved. -/
def pyShuffle (l : List α) (r : Rng) : List α × Rng :=
  shuffleGo l.length l r

/-- Model of `random.sample(l, k)`: `k` rounds of extraction without
replacement (callers guarantee `k ≤ l.length`, as the source does; with
excessive `k` the model simply exhausts the list). -/
def pySample (k : Nat) (l : List α) (r : Rng) : List α × Rng :=
  shuffleGo k l r

/-- Model of `random.choice(l)` (callers guarantee `l` non-empty; the default
is never used at real call sites). -/
def pyChoice (l : List α) (dflt : α) (r : Rng) : α × Rng :=
  (l.getD (r.randBelow l.length).1 dflt, (r.randBelow l.length).2)

/-! ## String helpers mirroring Python's `str` operations (ASCII fragment) -/

/-- `str.lower()` (ASCII; the data in this repository is ASCII).  All string
helpers work over the character list so that closed instances reduce in the
kernel. -/
def pyLower (s : String) : String := String.mk (s.data.map Char.toLower)

/-- `str.strip()` (leading and trailing whitespace removed). -/
def pyStrip (s : String) : String :=
  String.mk (((s.data.dropWhile Char.isWhitespace).reverse.dropWhile
    Char.isWhitespace).reverse)

/-- The accumulator loop behind `str.split()`: split on whitespace runs,
dropping empty pieces. -/
def pyWordsChars : List Char → List Char → List String
  | [], cur => if cur.isEmpty then [] else [String.mk cur.reverse]
  | ch :: rest, cur =>
    if ch.isWhitespace then
      (if cur.isEmpty then [] else [String.mk cur.reverse]) ++ pyWordsChars rest []
    else pyWordsChars rest (ch :: cur)

/-- `str.split()` with no separator. -/
def pyWords (s : String) : List String := pyWordsChars s.data []

/-- The word set of a string, as a `Finset`. -/
def wordSet (s : String) : Finset String := (pyWords s).toFinset

/-- Substring test over char lists (Python's `needle in hay`). -/
def subListAt : List Char → List Char → Bool
  | [], _ => true
  | _ :: _, [] => false
  | n, h :: t => (n.isPrefixOf (h :: t)) || subListAt n t

/-- Python's `needle in hay` substring containment. -/
def pyContains (hay needle : String) : Bool :=
  subListAt needle.toList hay.toList

/-- The accumulator loop behind `str.split(sep)` for a one-character
separator (empty pieces are kept, as in Python). -/
def splitOnCharGo (sep : Char) : List Char → List Char → List String
  | [], cur => [String.mk cur.reverse]
  | ch :: rest, cur =>
    if ch = sep then String.mk cur.reverse :: splitOnCharGo sep rest []
    else splitOnCharGo sep rest (ch :: cur)

/-- `str.split(sep)` for a one-character separator (used for the `'.'` and
`'_'` splits in the source). -/
def pySplitOn (s : String) (sep : Char) : List String := splitOnCharGo sep s.data []

/-- `str.startswith(pre)`. -/
def pyStartsWith (s pre : String) : Bool := pre.data.isPrefixOf s.data

/-- Render a rational with two decimal places, truncating (stands for
Python's `f"{x:.2f}"`; only ever used inside feedback strings, which no claim
inspects, so the rounding-mode difference is irrelevant). -/
def fmt2 (q : ℚ) : String :=
  let n : Int := (q * 100).floor
  toString (n / 100) ++ "." ++
    (let f := (n % 100).toNat
     (if f < 10 then "0" else "") ++ toString f)

/-! ### Permutation facts for `shuffleGo` / `pySample` -/

theorem removeAt_perm (l : List α) (i : Nat) (h : i < l.length) (a : α) :
    List.Perm l (l.getD i a :: removeAt l i) := by
  have hdrop : l.drop i = l.get ⟨i, h⟩ :: l.drop (i + 1) := List.drop_eq_getElem_cons h
  have hgetD : l.getD i a = l.get ⟨i, h⟩ := by
    simp [List.getD_eq_getElem?_getD, List.getElem?_eq_getElem h]
  have h1 : l = l.take i ++ (l.get ⟨i, h⟩ :: l.drop (i + 1)) := by
    conv_lhs => rw [← l.take_append_drop i, hdrop]
  rw [hgetD]
  unfold removeAt
  conv_lhs => rw [h1]
  exact List.perm_middle

theorem removeAt_length (l : List α) (i : Nat) (h : i < l.length) :
    (removeAt l i).length = l.length - 1 := by
  have := l.take_append_drop i
  simp only [removeAt, List.length_append, List.length_take, List.length_drop]
  omega

theorem shuffleGo_perm :
    ∀ (fuel : Nat) (l : List α) (r : Rng), l.length ≤ fuel →
      List.Perm (shuffleGo fuel l r).1 l := by
  intro fuel
  induction fuel with
  | zero =>
    intro l r h
    have : l = [] := List.eq_nil_of_length_eq_zero (Nat.le_zero.mp h)
    simp [this, shuffleGo]
  | succ n ih =>
    intro l r h
    match l with
    | [] => simp [shuffleGo]
    | a :: t =>
      simp only [shuffleGo]
      have hi : ((a :: t).length : Nat) > 0 := by simp
      have hlt : (r.randBelow (a :: t).length).1 < (a :: t).length := by
        simp only [Rng.randBelow]
        exact Nat.mod_lt _ hi
      have hrem : (removeAt (a :: t) (r.randBelow (a :: t).length).1).length ≤ n := by
        rw [removeAt_length _ _ hlt]
        simp only [List.length_cons] at h ⊢
        omega
      have hperm := ih (removeAt (a :: t) (r.randBelow (a :: t).length).1)
        (r.randBelow (a :: t).length).2 hrem
      refine List.Perm.symm ?_
      exact (removeAt_perm _ _ hlt a).trans (List.Perm.cons _ hperm.symm)

theorem pyShuffle_perm (l : List α) (r : Rng) : List.Perm (pyShuffle l r).1 l :=
  shuffleGo_perm l.length l r (Nat.le_refl _)

theorem shuffleGo_subset :
    ∀ (fuel : Nat) (l : List α) (r : Rng), ∀ x ∈ (shuffleGo fuel l r).1, x ∈ l := by
  intro fuel
  induction fuel with
  | zero => intro l r x hx; simp [shuffleGo] at hx
  | succ n ih =>
    intro l r x hx
    match l with
    | [] => simp [shuffleGo] at hx
    | a :: t =>
      simp only [shuffleGo, List.mem_cons] at hx
      have hi : ((a :: t).length : Nat) > 0 := by simp
      have hlt : (r.randBelow (a :: t).length).1 < (a :: t).length := by
        simp only [Rng.randBelow]; exact Nat.mod_lt _ hi
      have hmm := fun y =>
        (removeAt_perm (a :: t) (r.randBelow (a :: t).length).1 hlt a).mem_iff (a := y)
      rcases hx with hx | hx
      · rw [hx]
        exact (hmm _).mpr (List.mem_cons_self _ _)
      · exact (hmm _).mpr (List.mem_cons_of_mem _ (ih _ _ _ hx))

theorem shuffleGo_length :
    ∀ (fuel : Nat) (l : List α) (r : Rng),
      (shuffleGo fuel l r).1.length = min fuel l.length := by
  intro fuel
  induction fuel with
  | zero => intro l r; simp [shuffleGo]
  | succ n ih =>
    intro l r
    match l with
    | [] => simp [shuffleGo]
    | a :: t =>
      simp only [shuffleGo, List.length_cons]
      have hi : ((a :: t).length : Nat) > 0 := by simp
      have hlt : (r.randBelow (a :: t).length).1 < (a :: t).length := by
        simp only [Rng.randBelow]; exact Nat.mod_lt _ hi
      rw [ih]
      have hrl := removeAt_length _ _ hlt
      simp only [List.length_cons] at hrl ⊢
      rw [hrl]
      omega

theorem pySample_length (k : Nat) (l : List α) (r : Rng) :
    (pySample k l r).1.length = min k l.length :=
  shuffleGo_length k l r

theorem pySample_subset (k : Nat) (l : List α) (r : Rng) :
    ∀ x ∈ (pySample k l r).1, x ∈ l :=
  shuffleGo_subset k l r

theorem pyShuffle_length (l : List α) (r : Rng) :
    (pyShuffle l r).1.length = l.length :=
  (pyShuffle_perm l r).length_eq

/-! ## Progression engine (`src/modules/progression.py`) -/

/-- Fuelled floor-log₂ (`Nat.log2` is defined by well-founded recursion,
which the kernel cannot unfold; this structural version reduces on closed
input; fuel `n` always suffices since the argument halves each pass). -/
def log2fuel : Nat → Nat → Nat
  | 0, _ => 0
  | fuel + 1, n => if 2 ≤ n then log2fuel fuel (n / 2) + 1 else 0

/-- Floor of log₂ (agrees with `Nat.log2` on positive input). -/
def natLog2 (n : Nat) : Nat := log2fuel n n

/-- Round a positive integer significand to 53 bits (IEEE-754
round-to-nearest, ties-to-even), returned as `(significand, shift)` with
value `significand * 2 ^ shift`; integers below `2^53` are exact. -/
def rnd53 (m : Nat) : Nat × Nat :=
  if m < 2 ^ 53 then (m, 0)
  else
    let s := natLog2 m - 52
    let q := m / 2 ^ s
    let r := m % 2 ^ s
    let M := if 2 ^ s < 2 * r then q + 1 else if 2 * r < 2 ^ s then q else q + q % 2
    (M, s)

/-- `UserProgress._calculate_xp_for_next_level` / the per-level XP threshold:
`int(100 * 1.5 ** (level - 1))` under IEEE-754 double arithmetic.
`1.5 ** k` is the correctly rounded double nearest `3^k / 2^k` (exact while
`3^k < 2^53`; CPython delegates to the platform's correctly rounded `pow`),
the product with the exact double `100` rounds the 53-bit significand once
more, and `int` truncates.  From level 77 on this differs from the exact
floor `100 * 3^(L-1) / 2^(L-1)`; from level 81 on the difference is forced
under every rounding of `pow`, the exact floors being odd and above `2^53`
while any double of that magnitude is an even integer. -/
def xpThreshold (level : Nat) : Nat :=
  let k := level - 1
  let p := rnd53 (3 ^ k)
  let q := rnd53 (100 * p.1)
  q.1 * 2 ^ (q.2 + p.2) / 2 ^ k

/-- The `while` loop of `UserProgress._calculate_level_from_xp`, with
structural fuel (each pass consumes at least 100 XP, so
`totalXp.toNat / 100 + 1` passes always suffice). -/
def levelLoop : Nat → Int → Nat → Nat
  | 0, _, level => level
  | fuel + 1, xp, level =>
    if (xpThreshold level : Int) ≤ xp then levelLoop fuel (xp - xpThreshold level) (level + 1)
    else level

/-- Model of `UserProgress._calculate_level_from_xp`. -/
def calculate_level_from_xp (totalXp : Int) : Nat :=
  levelLoop (totalXp.toNat / 100 + 1) totalXp 1

/-- Modelled from the spec (§4.3 / §8.2), for comparison with the source's
`_calculate_level_from_xp`: the XP needed to advance from level L to L+1 is
`floor(100 × 1.5^(L−1))`. -/
def specXpToAdvance (l : Nat) : Nat := 100 * 3 ^ (l - 1) / 2 ^ (l - 1)

/-- Modelled from the spec (§4.3 / §8.2): start at level 1 with the whole XP
amount and repeatedly subtract the current level's threshold while enough XP
remains.  Fuel `xp + 1` suffices since every subtraction removes at least one
unit. -/
def specLevelStep : Nat → Nat → Nat → Nat
  | 0, _, level => level
  | fuel + 1, xpLeft, level =>
    if specXpToAdvance level ≤ xpLeft then
      specLevelStep fuel (xpLeft - specXpToAdvance level) (level + 1)
    else level

/-- Modelled from the spec: the reference levelling procedure. -/
def specLevelFromXp (xp : Nat) : Nat := specLevelStep (xp + 1) xp 1

/-- Sum of the spec-procedure thresholds for `count` consecutive levels
starting at `lo` (used to bound the XP domain on which the float-computed
and exact levelling procedures agree). -/
def specSumFrom : Nat → Nat → Nat
  | 0, _ => 0
  | count + 1, lo => specXpToAdvance lo + specSumFrom count (lo + 1)

/-- An earned-achievement record (`UserAchievement` dataclass); `earned_at`
is the ISO timestamp of the award. -/
structure UserAchievement where
  achievement_id : String
  earned_at : String
  xp_awarded : Int
deriving DecidableEq

/-- An achievement-catalog entry (`Achievement` dataclass).  The
`requirements` mapping is omitted: none of the operations modelled here read
it. -/
structure Achievement where
  id : String
  name : String
  description : String
  category : String
  xp_reward : Int
  badge_type : String
  icon : String
deriving DecidableEq

/-- `SpecialtyProficiency` dataclass. -/
structure SpecialtyProficiency where
  category : String
  level : Nat
  cases_completed : Nat
  accuracy : ℚ
  xp_earned : Int
  last_practiced : String
deriving DecidableEq

/-- `StreakData` dataclass; dates are day ordinals. -/
structure StreakData where
  current_streak : Nat
  longest_streak : Nat
  streak_start_date : Option Nat
  last_correct_date : Option Nat
  streak_multiplier : ℚ
deriving DecidableEq

/-- One entry of `performance_metrics.recent_performance`. -/
structure PerfRecord where
  accuracy : ℚ
  time_taken : ℚ
  category : String
  difficulty : String
deriving DecidableEq

/-- `UnlockStatus` dataclass (sets are modelled as lists without
duplicates; only membership and enumeration are used). -/
structure UnlockStatus where
  unlocked_difficulties : List String
  unlocked_categories : List String
  unlocked_special_features : List String
  achievement_based_unlocks : List (String × String)
deriving DecidableEq

/-- One difficulty-tier definition (external config consumed by
`_update_level_unlocks`). -/
structure TierDef where
  name : String
  level_requirement : Nat
deriving DecidableEq

/-- The mutable state of a `UserProgress` object (the fields consulted by the
operations modelled here). -/
structure ProgressState where
  user_id : String
  username : String
  level : Nat
  total_xp : Int
  xp_to_next_level : Int
  achievements : List Achievement
  earned_achievements : List UserAchievement
  specialties : List (String × SpecialtyProficiency)
  streak_data : StreakData
  recent_performance : List PerfRecord
  unlock_status : UnlockStatus
  difficulty_tiers : List TierDef
deriving DecidableEq

/-- The ids of already-earned achievements
(`[ea.achievement_id for ea in self.earned_achievements]`). -/
def earnedIds (s : ProgressState) : List String :=
  s.earned_achievements.map (·.achievement_id)

/-- `UserProgress._update_level_unlocks`: grant every tier whose level
requirement is met and that is not yet unlocked. -/
def updateLevelUnlocks (s : ProgressState) : ProgressState :=
  let newUnlocked := s.difficulty_tiers.foldl
    (fun acc t => if t.level_requirement ≤ s.level ∧ t.name ∉ acc then acc ++ [t.name] else acc)
    s.unlock_status.unlocked_difficulties
  { s with unlock_status := { s.unlock_status with unlocked_difficulties := newUnlocked } }

mutual

/-- Model of `UserProgress.award_achievement`.  The `fuel` argument bounds the
mutual recursion through `add_xp`; every nested pass awards a further
level-milestone achievement (of which there are three), so depth 8 is never
exhausted by `award_achievement`/`add_xp` as called with fuel 8 below. -/
def awardF : Nat → String → String → ProgressState → Bool × ProgressState
  | 0, _, _, s => (false, s)
  | fuel + 1, achievementId, now, s =>
    match s.achievements.find? (fun a => a.id = achievementId) with
    | none => (false, s)
    | some ach =>
      if achievementId ∈ earnedIds s then (false, s)
      else
        let s1 := { s with earned_achievements :=
          s.earned_achievements ++ [⟨achievementId, now, ach.xp_reward⟩] }
        let s2 := (addXpF fuel ach.xp_reward now s1).2
        let s3 := { s2 with unlock_status := { s2.unlock_status with
          achievement_based_unlocks :=
            s2.unlock_status.achievement_based_unlocks ++ [(achievementId, now)] } }
        (true, s3)

/-- Model of `UserProgress.add_xp` (the `source` argument of the Python
method is only logged and is omitted).  Returns
`(new_total_xp, leveled_up, new_achievement_ids)` alongside the state.  The
level-milestone loop of `_check_level_achievements` is unfolded over its
fixed table `{10: level_10, 25: level_25, 50: level_50}`, each step reading
the then-current state exactly as the source loop rereads `self`. -/
def addXpF : Nat → Int → String → ProgressState → (Int × Bool × List String) × ProgressState
  | 0, _, _, s => ((s.total_xp, false, []), s)
  | fuel + 1, amount, now, s =>
    let oldLevel := s.level
    let total := s.total_xp + amount
    let lvl := calculate_level_from_xp total
    let s1 := { s with total_xp := total, level := lvl,
                       xp_to_next_level := (xpThreshold lvl : Int) }
    if oldLevel < lvl then
      let q1 :=
        if 10 ≤ s1.level ∧ "level_10" ∉ earnedIds s1 then
          (let ar := awardF fuel "level_10" now s1
           (ar.2, if ar.1 then ["level_10"] else []))
        else (s1, ([] : List String))
      let q2 :=
        if 25 ≤ q1.1.level ∧ "level_25" ∉ earnedIds q1.1 then
          (let ar := awardF fuel "level_25" now q1.1
           (ar.2, q1.2 ++ if ar.1 then ["level_25"] else []))
        else q1
      let q3 :=
        if 50 ≤ q2.1.level ∧ "level_50" ∉ earnedIds q2.1 then
          (let ar := awardF fuel "level_50" now q2.1
           (ar.2, q2.2 ++ if ar.1 then ["level_50"] else []))
        else q2
      let s4 := updateLevelUnlocks q3.1
      ((s4.total_xp, true, q3.2), s4)
    else ((s1.total_xp, false, []), s1)

end

/-- `UserProgress.add_xp` at its always-sufficient recursion depth. -/
def add_xp (xpAmount : Int) (now : String) (s : ProgressState) :
    (Int × Bool × List String) × ProgressState :=
  addXpF 8 xpAmount now s

/-- `UserProgress.award_achievement` at its always-sufficient recursion
depth. -/
def award_achievement (achievementId : String) (now : String) (s : ProgressState) :
    Bool × ProgressState :=
  awardF 8 achievementId now s

/-- `UserProgress._calculate_streak_multiplier` (a function of the current
streak). -/
def calculate_streak_multiplier (streak : Nat) : ℚ :=
  if 20 ≤ streak then 2
  else if 15 ≤ streak then 7/4
  else if 10 ≤ streak then 3/2
  else if 5 ≤ streak then 5/4
  else if 3 ≤ streak then 11/10
  else 1

/-- `UserProgress._check_streak_achievements` (its table is
`{10: "perfect_streak"}`). -/
def check_streak_achievements (now : String) (s : ProgressState) : ProgressState :=
  if 10 ≤ s.streak_data.current_streak then (awardF 8 "perfect_streak" now s).2 else s

/-- Model of `UserProgress.update_streak`.  `today` is the current day
ordinal (for the calendar-day gap test) and `now` the current timestamp (for
achievement records).  Returns `(current_streak, streak_multiplier)` and the
new state. -/
def update_streak (isCorrect : Bool) (today : Nat) (now : String) (s : ProgressState) :
    (Nat × ℚ) × ProgressState :=
  if isCorrect then
    let sd := s.streak_data
    let sd1 :=
      match sd.last_correct_date with
      | some d => if 1 < (today : Int) - (d : Int) then
                    { sd with current_streak := 0, streak_start_date := some today }
                  else sd
      | none => sd
    let cur := sd1.current_streak + 1
    let sd2 := { sd1 with current_streak := cur, last_correct_date := some today }
    let sd3 := if cur = 1 then { sd2 with streak_start_date := some today } else sd2
    let sd4 := if sd3.longest_streak < cur then { sd3 with longest_streak := cur } else sd3
    let sd5 := { sd4 with streak_multiplier := calculate_streak_multiplier cur }
    let s1 := { s with streak_data := sd5 }
    let s2 := check_streak_achievements now s1
    ((s2.streak_data.current_streak, s2.streak_data.streak_multiplier), s2)
  else
    let s1 := { s with streak_data :=
      { s.streak_data with current_streak := 0, streak_multiplier := 1 } }
    ((s1.streak_data.current_streak, s1.streak_data.streak_multiplier), s1)

/-- `UserProgress.calculate_adaptive_difficulty`: route recent mean accuracy
and time to the best unlocked tier. -/
def calculate_adaptive_difficulty (s : ProgressState) (recent : List PerfRecord) : String :=
  if recent.isEmpty then "beginner"
  else
    let n : ℚ := recent.length
    let recentAccuracy := (recent.map (·.accuracy)).sum / n
    let recentAvgTime := (recent.map (·.time_taken)).sum / n
    let unlocked := s.unlock_status.unlocked_difficulties
    if 90 ≤ recentAccuracy ∧ recentAvgTime < 120 then
      if "expert" ∈ unlocked then "expert"
      else if "advanced" ∈ unlocked then "advanced"
      else if "intermediate" ∈ unlocked then "intermediate"
      else "beginner"
    else if 75 ≤ recentAccuracy then
      if "advanced" ∈ unlocked then "advanced"
      else if "intermediate" ∈ unlocked then "intermediate"
      else "beginner"
    else if 60 ≤ recentAccuracy then
      if "intermediate" ∈ unlocked then "intermediate"
      else "beginner"
    else "beginner"

/-! ## Data model for cases, diagnoses, configuration and quizzes -/

/-- A clinical case record.  `case_id` and `diagnosis` are accessed directly
by the source (`case['...']`), the other fields through `.get` with defaults,
hence the `Option` types. -/
structure Case where
  case_id : String
  diagnosis : String
  category : Option String := none
  age_group : Option String := none
  complexity : Option String := none
  difficulty_tier : Option String := none
  narrative : Option String := none
  mse : Option String := none
  clinical_specifiers : List String := []
  course_specifiers : List String := []
  symptom_variants : List String := []
deriving DecidableEq

/-- A diagnosis-catalog record (`name` is accessed directly, `category`
through `.get(_, 'Unknown')`). -/
structure Diagnosis where
  name : String
  category : Option String := none
deriving DecidableEq

/-- The quiz-generation configuration dictionary; `none` stands for an absent
key. -/
structure QuizConfig where
  num_questions : Option Nat := none
  num_choices : Option Nat := none
  shuffle : Option Bool := none
  seed : Option Nat := none
  categories : Option (List String) := none
  age_groups : Option (List String) := none
  complexities : Option (List String) := none
  diagnoses : Option (List String) := none
  difficulty_tiers : Option (List String) := none
  clinical_specifiers : Option (List String) := none
  course_specifiers : Option (List String) := none
  symptom_variants : Option (List String) := none
  exclude_categories : Option (List String) := none
  exclude_age_groups : Option (List String) := none
  exclude_complexities : Option (List String) := none
  exclude_diagnoses : Option (List String) := none
  exclude_difficulty_tiers : Option (List String) := none
  exclude_clinical_specifiers : Option (List String) := none
  exclude_course_specifiers : Option (List String) := none
  exclude_symptom_variants : Option (List String) := none
  adaptive_mode : Option Bool := none
  differential_mode : Option Bool := none
  multi_case_matching : Option Bool := none
  streak_sequencing : Option Bool := none
  time_adjustment : Option Bool := none
  bonus_xp_opportunities : Option Bool := none
deriving DecidableEq

/-! ### `DataLoader.get_filtered_cases` -/

/-- An inclusion filter over a scalar case field (`if f and case.get(k) not
in f: skip`); an absent or empty filter list is falsy and imposes nothing. -/
def inclOk (filt : Option (List String)) (v : Option String) : Bool :=
  match filt with
  | none => true
  | some [] => true
  | some fs => match v with
    | none => false
    | some x => x ∈ fs

/-- An exclusion filter over a scalar case field. -/
def exclOk (filt : Option (List String)) (v : Option String) : Bool :=
  match filt with
  | none => true
  | some [] => true
  | some fs => match v with
    | none => true
    | some x => x ∉ fs

/-- An inclusion filter over a list-valued case field (`any(spec in case_list
for spec in filt)`). -/
def inclAnyOk (filt : Option (List String)) (vs : List String) : Bool :=
  match filt with
  | none => true
  | some [] => true
  | some fs => fs.any (· ∈ vs)

/-- An exclusion filter over a list-valued case field. -/
def exclAnyOk (filt : Option (List String)) (vs : List String) : Bool :=
  match filt with
  | none => true
  | some [] => true
  | some fs => !(fs.any (· ∈ vs))

/-- Model of `DataLoader.get_filtered_cases` for the filter set that
`generate_quiz` passes (the `case_id` filters are never supplied there). -/
def get_filtered_cases (cases : List Case) (cfg : QuizConfig) : List Case :=
  cases.filter fun c =>
    inclOk cfg.categories c.category &&
    inclOk cfg.age_groups c.age_group &&
    inclOk cfg.complexities c.complexity &&
    inclOk cfg.diagnoses (some c.diagnosis) &&
    inclOk cfg.difficulty_tiers c.difficulty_tier &&
    inclAnyOk cfg.clinical_specifiers c.clinical_specifiers &&
    inclAnyOk cfg.course_specifiers c.course_specifiers &&
    inclAnyOk cfg.symptom_variants c.symptom_variants &&
    exclOk cfg.exclude_categories c.category &&
    exclOk cfg.exclude_age_groups c.age_group &&
    exclOk cfg.exclude_complexities c.complexity &&
    exclOk cfg.exclude_diagnoses (some c.diagnosis) &&
    exclOk cfg.exclude_difficulty_tiers c.difficulty_tier &&
    exclAnyOk cfg.exclude_clinical_specifiers c.clinical_specifiers &&
    exclAnyOk cfg.exclude_course_specifiers c.course_specifiers &&
    exclAnyOk cfg.exclude_symptom_variants c.symptom_variants

/-! ### Question and quiz value objects -/

/-- A rendered answer option (`{'id': i, 'text': option}`). -/
structure OptionObj where
  id : Nat
  text : String
deriving DecidableEq

/-- The `case_metadata` snapshot attached to a question. -/
structure CaseMeta where
  category : Option String
  age_group : Option String
  complexity : Option String
deriving DecidableEq

/-- The `differential_info` block of a differential-diagnosis question. -/
structure DifferentialInfo where
  key_symptoms : List String
  differential_considerations : List String
deriving DecidableEq

/-- One entry of `bonus_opportunities`. -/
structure BonusOpportunity where
  type : String
  description : String
  xp_multiplier : ℚ
deriving DecidableEq

/-- The `time_adjustments` block. -/
structure TimeAdjustments where
  time_bonus_threshold : Nat
  accuracy_threshold : Nat
  base_xp : ℚ
deriving DecidableEq

/-- The `xp_calculation` block. -/
structure XpCalculation where
  base_xp : ℚ
  time_bonus_available : Bool
  accuracy_bonus_available : Bool
deriving DecidableEq

/-- A single-case question (`standard` or `differential_diagnosis`); the
optional trailing blocks are attached only by the corresponding feature
switches. -/
structure StdQuestion where
  question_number : Nat
  case_id : String
  question_text : String
  question_type : String
  options : List OptionObj
  correct_answer : String
  correct_index : Nat
  explanation : String
  reference : String
  case_metadata : CaseMeta
  differential_info : Option DifferentialInfo := none
  bonus_opportunities : Option (List BonusOpportunity) := none
  time_adjustments : Option TimeAdjustments := none
  xp_calculation : Option XpCalculation := none
deriving DecidableEq

/-- The abbreviated per-case data inside a multi-case matching question. -/
structure MatchCaseView where
  case_id : String
  age : String
  gender : String
  chief_complaint : String
  history : String
  examination : String
  category : Option String
  complexity : Option String
deriving DecidableEq

/-- A multi-case matching question. -/
structure MatchQuestion where
  question_number : Nat
  question_text : String
  question_type : String
  cases : List MatchCaseView
  diagnosis_options : List OptionObj
  correct_mapping : List (String × String)
  explanation : String
  reference : String
deriving DecidableEq

/-- A generated question. -/
inductive Question where
  | single (q : StdQuestion)
  | matching (m : MatchQuestion)
deriving DecidableEq

/-- Reassign an ordinal after shuffling (`question['question_number'] = i+1`). -/
def setQuestionNumber (q : Question) (n : Nat) : Question :=
  match q with
  | .single sq => .single { sq with question_number := n }
  | .matching m => .matching { m with question_number := n }

/-- The `adaptive_features` block of the quiz metadata. -/
structure QuizAdaptiveFeatures where
  adaptive_mode : Bool
  differential_mode : Bool
  multi_case_matching : Bool
  streak_sequencing : Bool
  time_adjustment : Bool
  bonus_xp_opportunities : Bool
deriving DecidableEq

/-- The `quiz_metadata` block. -/
structure QuizMetadata where
  total_questions : Nat
  num_choices : Nat
  configuration : QuizConfig
  generated_at : String
  adaptive_features : QuizAdaptiveFeatures
deriving DecidableEq

/-- A generated quiz. -/
structure QuizData where
  quiz_metadata : QuizMetadata
  questions : List Question
deriving DecidableEq

/-- The state of a `QuizGenerator` (its data loader's case and diagnosis
pools plus the optional user-progress collaborator). -/
structure GeneratorState where
  cases : List Case
  diagnoses : List Diagnosis
  user_progress : Option ProgressState
deriving DecidableEq

/-! ### Static tables of `QuizGenerator` -/

/-- `self.clinical_similarity_map`. -/
def clinical_similarity_map : List (String × List String) :=
  [("Depressive Disorders",
    ["Major Depressive Disorder", "Persistent Depressive Disorder",
     "Disruptive Mood Dysregulation Disorder"]),
   ("Anxiety Disorders",
    ["Generalized Anxiety Disorder", "Panic Disorder", "Social Anxiety Disorder",
     "Specific Phobia"]),
   ("Schizophrenia Spectrum and Other Psychotic Disorders",
    ["Schizophrenia", "Schizoaffective Disorder", "Brief Psychotic Disorder",
     "Delusional Disorder"]),
   ("Personality Disorders",
    ["Borderline Personality Disorder", "Narcissistic Personality Disorder",
     "Antisocial Personality Disorder", "Avoidant Personality Disorder"]),
   ("Substance-Related and Addictive Disorders",
    ["Alcohol Use Disorder", "Opioid Use Disorder", "Stimulant Use Disorder",
     "Cannabis Use Disorder"]),
   ("Neurodevelopmental Disorders",
    ["Attention-Deficit/Hyperactivity Disorder", "Autism Spectrum Disorder",
     "Intellectual Disability", "Specific Learning Disorder"])]

/-- `self.difficulty_tiers`: tier name ↦ (xp_multiplier, time_bonus_threshold,
accuracy_threshold). -/
def difficulty_tiers_table : List (String × (ℚ × Nat × Nat)) :=
  [("easy", (1, 120, 60)), ("moderate", (3/2, 90, 75)), ("high", (2, 60, 85)),
   ("beginner", (1, 120, 60)), ("intermediate", (3/2, 90, 75)),
   ("advanced", (2, 60, 85)), ("expert", (3, 45, 90))]

/-- `self.difficulty_tiers.get(name)`. -/
def tierConfig (name : String) : Option (ℚ × Nat × Nat) :=
  (difficulty_tiers_table.find? (·.1 = name)).map (·.2)

/-- `self.difficulty_tiers.get(name, {}).get('xp_multiplier', 1.0)`. -/
def tierXpMultiplier (name : String) : ℚ :=
  match tierConfig name with
  | some t => t.1
  | none => 1

/-- `self.difficulty_mapping.get(d, d)`. -/
def difficulty_mapping (d : String) : String :=
  if d = "beginner" then "easy"
  else if d = "intermediate" then "moderate"
  else if d = "advanced" then "high"
  else if d = "expert" then "high"
  else d

/-- The clinical `specifier_map` of `_add_clinical_specifiers`; `none` when
the category or age group has no entry. -/
def specifier_map (category ageGroup : String) : Option (List String) :=
  if category = "Depressive Disorders" then
    if ageGroup = "child" then some ["with onset in childhood", "pediatric onset"]
    else if ageGroup = "adolescent" then some ["with onset in adolescence", "teenage onset"]
    else if ageGroup = "adult" then
      some ["with anxious distress", "with mixed features", "with melancholic features"]
    else if ageGroup = "older_adult" then some ["late onset", "with vascular contributions"]
    else none
  else if category = "Anxiety Disorders" then
    if ageGroup = "child" then some ["separation type", "school refusal"]
    else if ageGroup = "adolescent" then some ["social type", "performance type"]
    else if ageGroup = "adult" then some ["generalized type", "with panic attacks"]
    else if ageGroup = "older_adult" then some ["late onset", "with medical comorbidity"]
    else none
  else if category = "Schizophrenia Spectrum and Other Psychotic Disorders" then
    if ageGroup = "child" then some ["childhood onset", "early onset"]
    else if ageGroup = "adolescent" then some ["adolescent onset", "with disorganized features"]
    else if ageGroup = "adult" then some ["paranoid type", "disorganized type", "catatonic type"]
    else if ageGroup = "older_adult" then some ["late onset", "with cognitive decline"]
    else none
  else none

/-- The fixed generic fallback pool of `_generate_distractors`. -/
def genericDistractorPool : List String :=
  ["Other Neurodevelopmental Disorder", "Other Mood Disorder", "Other Anxiety Disorder",
   "Other Psychotic Disorder", "Other Personality Disorder"]

/-- The symptom keyword list of `_extract_key_symptoms`. -/
def symptomKeywords : List String :=
  ["depressed", "elevated", "anxious", "psychotic", "hallucination", "delusion", "mania",
   "panic", "obsessive", "compulsive", "paranoid", "disorganized", "withdrawn", "agitated",
   "irritable"]

/-! ### Distractor generation -/

/-- Building `diagnosis_by_category`: an insertion-ordered association from
category to the diagnosis names filed under it, exactly as the source's dict
construction. -/
def addToCategory (m : List (String × List String)) (cat name : String) :
    List (String × List String) :=
  if m.any (·.1 = cat) then m.map (fun p => if p.1 = cat then (p.1, p.2 ++ [name]) else p)
  else m ++ [(cat, [name])]

/-- The `diagnosis_by_category` mapping built by `generate_quiz`. -/
def diagnosisByCategory (ds : List Diagnosis) : List (String × List String) :=
  ds.foldl (fun m d => addToCategory m (d.category.getD "Unknown") d.name) []

/-- `diagnosis_by_category.get(cat, [])`. -/
def catLookup (m : List (String × List String)) (cat : String) : List String :=
  match m.find? (·.1 = cat) with
  | some p => p.2
  | none => []

/-- The generic-fallback `while` loop of `_generate_distractors`.  Each pass
appends the first generic label not yet used and different from the correct
answer; five passes exhaust the five-element pool, after which the source
loop makes no further progress (and, when still short, never terminates — in
that starvation case the source produces no quiz at all, so the truncated
result returned here is never compared against a Python-produced value). -/
def addGenerics (correct : String) (numDistractors : Nat) : Nat → List String → List String
  | 0, acc => acc
  | fuel + 1, acc =>
    if acc.length < numDistractors then
      match genericDistractorPool.find? (fun g => g ≠ correct && g ∉ acc) with
      | some g => addGenerics correct numDistractors fuel (acc ++ [g])
      | none => acc
    else acc

/-- Model of `QuizGenerator._generate_distractors`: same-category names
first, then other categories, then the generic pool; no duplicates are ever
checked against the first phase's own source list (the source relies on the
catalog being duplicate-free). -/
def generate_distractors (correct caseCategory : String)
    (byCat : List (String × List String)) (numDistractors : Nat) (r : Rng) :
    List String × Rng :=
  let sameCategoryDistractors := (catLookup byCat caseCategory).filter (· ≠ correct)
  let sh := pyShuffle sameCategoryDistractors r
  let d1 := sh.1.take numDistractors
  if d1.length < numDistractors then
    let allDiagnoses := (byCat.filter (fun p => p.1 ≠ caseCategory)).flatMap (·.2)
    let remaining := allDiagnoses.filter (fun d => d ≠ correct && d ∉ d1)
    let sh2 := pyShuffle remaining sh.2
    let d2 := d1 ++ sh2.1.take (numDistractors - d1.length)
    let d3 := addGenerics correct numDistractors 5 d2
    (d3.take numDistractors, sh2.2)
  else (d1.take numDistractors, sh.2)

/-- The per-option loop of `_add_clinical_specifiers`: one 30% draw per
option; on success a specifier for the case's category and age group is
appended to the option text. -/
def addSpecifiersGo (category ageGroup : String) : List String → Rng → List String × Rng
  | [], r => ([], r)
  | opt :: restOpts, r =>
    let d := r.draw30
    match specifier_map category ageGroup with
    | some specs =>
      if d.1 then
        let ch := pyChoice specs "" d.2
        let rest := addSpecifiersGo category ageGroup restOpts ch.2
        ((opt ++ ", " ++ ch.1) :: rest.1, rest.2)
      else
        let rest := addSpecifiersGo category ageGroup restOpts d.2
        (opt :: rest.1, rest.2)
    | none =>
      let rest := addSpecifiersGo category ageGroup restOpts d.2
      (opt :: rest.1, rest.2)

/-- Model of `QuizGenerator._add_clinical_specifiers`. -/
def add_clinical_specifiers (options : List String) (c : Case) (r : Rng) :
    List String × Rng :=
  addSpecifiersGo (c.category.getD "unknown") (c.age_group.getD "adult") options r

/-! ### Question text, explanation and reference templates -/

/-- `QuizGenerator._format_question_text`. -/
def format_question_text (c : Case) : String :=
  "Clinical Presentation:\n" ++ c.narrative.getD "" ++
  "\n\nMental Status Examination:\n" ++ c.mse.getD "" ++
  "\n\nBased on the clinical presentation and mental status examination, what is the most likely diagnosis?"

/-- `QuizGenerator._generate_explanation`. -/
def generate_explanation (c : Case) (correct : String) : String :=
  let category := c.category.getD "Unknown"
  if category = "Depressive Disorders" then
    "The diagnosis of " ++ correct ++ " is supported by the patient's persistent depressed mood, anhedonia, and neurovegetative symptoms. The MSE reveals psychomotor changes and hopelessness, which are characteristic of this condition."
  else if category = "Anxiety Disorders" then
    "The diagnosis of " ++ correct ++ " is based on the patient's excessive worry, physical symptoms of anxiety, and avoidance behaviors. The MSE shows anxious affect and preoccupation with feared outcomes."
  else if category = "Schizophrenia Spectrum and Other Psychotic Disorders" then
    "The diagnosis of " ++ correct ++ " is indicated by the presence of psychotic symptoms including delusions and hallucinations, along with disorganized thinking. The MSE demonstrates thought disorder and impaired insight."
  else if category = "Bipolar and Related Disorders" then
    "The diagnosis of " ++ correct ++ " is supported by the history of manic or hypomanic episodes with elevated mood, increased energy, and impaired judgment. The MSE may show expansive affect during acute episodes."
  else
    "The diagnosis of " ++ correct ++ " is supported by the clinical presentation and mental status examination findings."

/-- `QuizGenerator._generate_reference`. -/
def generate_reference (c : Case) : String :=
  let category := c.category.getD "Unknown"
  if category = "Depressive Disorders" then
    "DSM-5 Criteria: Five or more symptoms including depressed mood, anhedonia, weight changes, sleep disturbance, fatigue, guilt, concentration difficulties, psychomotor changes, or suicidal ideation."
  else if category = "Anxiety Disorders" then
    "DSM-5 Criteria: Excessive anxiety and worry occurring more days than not for at least 6 months, plus associated symptoms like restlessness, fatigue, difficulty concentrating, irritability, muscle tension, or sleep disturbance."
  else if category = "Schizophrenia Spectrum and Other Psychotic Disorders" then
    "DSM-5 Criteria: Two or more symptoms including delusions, hallucinations, disorganized speech, grossly disorganized behavior, or negative symptoms, with duration of 6 months and impairment in functioning."
  else if category = "Bipolar and Related Disorders" then
    "DSM-5 Criteria: Distinct period of abnormally elevated, expansive, or irritable mood and increased activity/energy lasting at least 1 week, with marked impairment or requiring hospitalization."
  else "DSM-5 Diagnostic Criteria for psychiatric disorders."

/-! ### Question construction -/

/-- Enumerate options into `{'id': i, 'text': t}` objects. -/
def mkOptionObjects (opts : List String) : List OptionObj :=
  opts.enum.map (fun p => ⟨p.1, p.2⟩)

/-- Model of `QuizGenerator._create_question` (a `standard` question):
distractors, clinical-specifier decoration, option shuffle, and a
starts-with search for the correct index. -/
def create_question (c : Case) (byCat : List (String × List String))
    (numChoices questionNumber : Nat) (r : Rng) : StdQuestion × Rng :=
  let correct := c.diagnosis
  let caseCategory := c.category.getD "Unknown"
  let gd := generate_distractors correct caseCategory byCat (numChoices - 1) r
  let enh := add_clinical_specifiers (correct :: gd.1) c gd.2
  let sh := pyShuffle enh.1 enh.2
  let allOptions := sh.1
  ({ question_number := questionNumber
     case_id := c.case_id
     question_text := format_question_text c
     question_type := "standard"
     options := mkOptionObjects allOptions
     correct_answer := correct
     correct_index := allOptions.findIdx (fun o => pyStartsWith o correct)
     explanation := generate_explanation c correct
     reference := generate_reference c
     case_metadata := ⟨c.category, c.age_group, c.complexity⟩ }, sh.2)

/-- `QuizGenerator._extract_key_symptoms`. -/
def extract_key_symptoms (c : Case) : List String :=
  let combined := pyLower (c.narrative.getD "") ++ " " ++ pyLower (c.mse.getD "")
  (symptomKeywords.filter (fun k => pyContains combined k)).take 5

/-- Model of `QuizGenerator._generate_smart_distractors`: clinically similar
labels first (category match or lowercase-substring hit), topped up through
`_generate_distractors`. -/
def generate_smart_distractors (correct caseCategory : String)
    (byCat : List (String × List String)) (numDistractors : Nat) (r : Rng) :
    List String × Rng :=
  let similar := (clinical_similarity_map.filter (fun p =>
      p.1 = caseCategory || p.2.any (fun d => pyContains (pyLower d) (pyLower correct)))).flatMap (·.2)
  let similar2 := similar.filter (fun d => pyLower d ≠ pyLower correct)
  let sh := pyShuffle similar2 r
  let d1 := sh.1.take numDistractors
  if d1.length < numDistractors then
    let extra := generate_distractors correct caseCategory byCat (numDistractors - d1.length) sh.2
    ((d1 ++ extra.1).take numDistractors, extra.2)
  else (d1.take numDistractors, sh.2)

/-- `QuizGenerator._format_differential_question_text`. -/
def format_differential_question_text (c : Case) : String :=
  "Case " ++ c.case_id ++ " - Differential Diagnosis\n\nPatient Information:\n- Age Group: " ++
  c.age_group.getD "Unknown" ++ "\n- Category: " ++ c.category.getD "Unknown" ++
  "\n\nClinical Presentation:\n" ++ c.narrative.getD "" ++
  "\n\nMental Status Examination:\n" ++ c.mse.getD "" ++
  "\n\nConsidering the differential diagnosis, which of the following is the most likely primary diagnosis?"

/-- Model of `QuizGenerator._create_differential_question`. -/
def create_differential_question (c : Case) (byCat : List (String × List String))
    (numChoices questionNumber : Nat) (r : Rng) : StdQuestion × Rng :=
  let correct := c.diagnosis
  let caseCategory := c.category.getD "Unknown"
  let gd := generate_smart_distractors correct caseCategory byCat (numChoices - 1) r
  let sh := pyShuffle (correct :: gd.1) gd.2
  let allOptions := sh.1
  ({ question_number := questionNumber
     case_id := c.case_id
     question_text := format_differential_question_text c
     question_type := "differential_diagnosis"
     options := mkOptionObjects allOptions
     correct_answer := correct
     correct_index := allOptions.findIdx (· = correct)
     explanation := generate_explanation c correct
     reference := generate_reference c
     case_metadata := ⟨c.category, c.age_group, c.complexity⟩
     differential_info := some ⟨extract_key_symptoms c, gd.1 ++ [correct]⟩ }, sh.2)

/-- `QuizGenerator._extract_chief_complaint`. -/
def extract_chief_complaint (c : Case) : String :=
  match pySplitOn (c.narrative.getD "") '.' with
  | [] => "Chief complaint not specified."
  | s0 :: _ => pyStrip s0 ++ "."

/-- `QuizGenerator._extract_history`. -/
def extract_history (c : Case) : String :=
  let sentences := pySplitOn (c.narrative.getD "") '.'
  if 1 < sentences.length then
    pyStrip (String.intercalate ". " ((sentences.drop 1).take 2)) ++ "."
  else "History not detailed."

/-- Model of `QuizGenerator._create_multi_case_matching_question` on its
(always satisfied) three-case precondition. -/
def create_multi_case_matching_question (a b c : Case) (questionNumber : Nat) (r : Rng) :
    MatchQuestion × Rng :=
  let sh := pyShuffle [a.diagnosis, b.diagnosis, c.diagnosis] r
  let toView := fun (x : Case) => MatchCaseView.mk x.case_id (x.age_group.getD "Unknown")
    "Unknown" (extract_chief_complaint x) (extract_history x) (x.mse.getD "Not available")
    x.category x.complexity
  ({ question_number := questionNumber
     question_text := "Match each case to the most appropriate diagnosis by dragging the diagnoses to the correct case columns."
     question_type := "multi_case_matching"
     cases := [toView a, toView b, toView c]
     diagnosis_options := mkOptionObjects sh.1
     correct_mapping := [(a.case_id, a.diagnosis), (b.case_id, b.diagnosis), (c.case_id, c.diagnosis)]
     explanation := "Correct matching demonstrates understanding of distinguishing clinical features."
     reference := "Based on DSM-5 criteria and clinical presentation patterns." }, sh.2)

/-- `self.user_progress.specialties.get(category)` membership and lookup. -/
def lookupSpecialty (p : ProgressState) (category : String) : Option SpecialtyProficiency :=
  (p.specialties.find? (·.1 = category)).map (·.2)

/-- Model of `QuizGenerator._add_bonus_xp_opportunities`. -/
def add_bonus_xp_opportunities (q : StdQuestion) (c : Case)
    (progress : Option ProgressState) : StdQuestion :=
  let complexity := c.complexity.getD "basic"
  let category := c.category.getD "unknown"
  let b1 : List BonusOpportunity :=
    if complexity = "advanced" ∨ complexity = "expert" then
      [⟨"complexity_bonus", "Bonus XP for " ++ complexity ++ " case", tierXpMultiplier complexity⟩]
    else []
  let b2 := b1 ++
    (match progress with
     | some p =>
       match lookupSpecialty p category with
       | some prof => if 7 ≤ prof.level then
           [⟨"mastery_bonus", "Mastery bonus for " ++ category, 6/5⟩] else []
       | none => []
     | none => [])
  let b3 := b2 ++
    (match progress with
     | some p =>
       if 5 ≤ p.streak_data.current_streak then
         [⟨"streak_bonus",
           "Streak bonus (" ++ toString p.streak_data.current_streak ++ " in a row)",
           p.streak_data.streak_multiplier⟩]
       else []
     | none => [])
  { q with bonus_opportunities := some b3 }

/-- Model of `QuizGenerator._add_time_based_adjustments`. -/
def add_time_based_adjustments (q : StdQuestion) (c : Case) : StdQuestion :=
  let complexity := c.complexity.getD "basic"
  let cfgT := tierConfig complexity
  let thresh := match cfgT with | some t => t.2.1 | none => 120
  let accTh := match cfgT with | some t => t.2.2 | none => 60
  let baseXp : ℚ := 10 * (match cfgT with | some t => t.1 | none => 1)
  { q with time_adjustments := some ⟨thresh, accTh, baseXp⟩,
           xp_calculation := some ⟨baseXp, true, true⟩ }

/-! ### Case selection -/

/-- `case.get('category') in listOfCategories` for an optional field. -/
def optMem (v : Option String) (l : List String) : Bool :=
  match v with
  | some x => x ∈ l
  | none => false

/-- Model of `QuizGenerator._adaptive_case_selection`. -/
def adaptive_case_selection (progressOpt : Option ProgressState)
    (filteredCases : List Case) (numQuestions : Nat) (r : Rng) : List Case × Rng :=
  match progressOpt with
  | none => pySample (min numQuestions filteredCases.length) filteredCases r
  | some p =>
    let weakCategories := (p.specialties.filter (fun pr => pr.2.accuracy < 70)).map (·.1)
    let step1 :=
      if ¬weakCategories.isEmpty then
        let weakCases := filteredCases.filter (fun c => optMem c.category weakCategories)
        let weakToSelect := min weakCases.length (numQuestions / 2)
        if 0 < weakToSelect then
          let sw := pySample weakToSelect weakCases r
          (sw.1, filteredCases.filter (fun c => c ∉ sw.1), sw.2)
        else (([] : List Case), filteredCases, r)
      else (([] : List Case), filteredCases, r)
    let selected := step1.1
    let remaining := step1.2.1
    let r1 := step1.2.2
    let remainingNeeded := numQuestions - selected.length
    let step2 :=
      if 0 < remainingNeeded ∧ ¬remaining.isEmpty then
        let ad := pySample (min remainingNeeded remaining.length) remaining r1
        (selected ++ ad.1, ad.2)
      else (selected, r1)
    (step2.1.take numQuestions, step2.2)

/-- Model of `QuizGenerator._streak_based_sequencing`. -/
def streak_based_sequencing (progressOpt : Option ProgressState)
    (filteredCases : List Case) (numQuestions : Nat) (r : Rng) : List Case × Rng :=
  match progressOpt with
  | none => pySample (min numQuestions filteredCases.length) filteredCases r
  | some p =>
    let currentStreak := p.streak_data.current_streak
    let difficultyPreference :=
      if 10 ≤ currentStreak then ["high", "moderate", "easy"]
      else if 5 ≤ currentStreak then ["moderate", "high", "easy"]
      else ["easy", "moderate"]
    let step := fun (st : List Case × List Case × Rng) (pref : String) =>
      if numQuestions ≤ st.1.length then st
      else
        let difficultyCases := st.2.1.filter (fun c => c.complexity = some pref)
        if ¬difficultyCases.isEmpty then
          let toSelect := min difficultyCases.length (numQuestions - st.1.length)
          let sel := pySample toSelect difficultyCases st.2.2
          (st.1 ++ sel.1, st.2.1.filter (fun c => c ∉ sel.1), sel.2)
        else st
    let st3 := difficultyPreference.foldl step (([] : List Case), filteredCases, r)
    let final :=
      if st3.1.length < numQuestions ∧ ¬st3.2.1.isEmpty then
        let ad := pySample (min (numQuestions - st3.1.length) st3.2.1.length) st3.2.1 st3.2.2
        (st3.1 ++ ad.1, ad.2)
      else (st3.1, st3.2.2)
    (final.1.take numQuestions, final.2)

/-- Model of `QuizGenerator._get_adaptive_complexities`. -/
def get_adaptive_complexities (progressOpt : Option ProgressState) : List String :=
  match progressOpt with
  | none => ["easy", "moderate"]
  | some p =>
    if p.recent_performance.isEmpty then ["easy"]
    else
      let recommended := calculate_adaptive_difficulty p p.recent_performance
      let mapped := difficulty_mapping recommended
      let actual := ["easy", "moderate", "high"]
      let recIndex := if mapped ∈ actual then actual.indexOf mapped else 0
      [mapped]
        ++ (if 0 < recIndex then [actual.getD (recIndex - 1) ""] else [])
        ++ (if recIndex < actual.length - 1 then [actual.getD (recIndex + 1) ""] else [])

/-- Model of `QuizGenerator._get_unlocked_difficulties`. -/
def get_unlocked_difficulties (progressOpt : Option ProgressState) : List String :=
  match progressOpt with
  | none => ["beginner"]
  | some p => p.unlock_status.unlocked_difficulties

/-! ### `generate_quiz` -/

/-- The configuration mutations `generate_quiz` performs before filtering
(adaptive complexity replacement, then intersection with the unlocked
difficulty set whenever `user_progress` is present). -/
def effectiveConfig (progressOpt : Option ProgressState) (cfg : QuizConfig) : QuizConfig :=
  let cfg1 :=
    if cfg.adaptive_mode.getD false ∧ progressOpt.isSome then
      { cfg with complexities := some (get_adaptive_complexities progressOpt) }
    else cfg
  match progressOpt with
  | none => cfg1
  | some _ =>
    match cfg1.complexities with
    | some (c :: cs) =>
      let kept := (c :: cs).filter (· ∈ get_unlocked_difficulties progressOpt)
      { cfg1 with complexities := some kept }
    | _ => { cfg1 with complexities := some (get_unlocked_difficulties progressOpt) }

/-- Group selected cases into buckets of three, dropping any trailing partial
group (the source's stride-3 slicing plus its `len >= 3` guard). -/
def chunks3 : List α → List (α × α × α)
  | a :: b :: c :: rest => (a, b, c) :: chunks3 rest
  | _ => []

/-- The question-construction loop for single-case questions (`standard` or
differential), with the optional bonus-XP and time-adjustment decoration. -/
def buildStandardQuestions (progressOpt : Option ProgressState)
    (byCat : List (String × List String)) (numChoices : Nat)
    (differentialMode bonusXp timeAdjustment : Bool) :
    List Case → Nat → Rng → List Question × Rng
  | [], _, r => ([], r)
  | c :: rest, idx, r =>
    let qr :=
      if differentialMode then create_differential_question c byCat numChoices (idx + 1) r
      else create_question c byCat numChoices (idx + 1) r
    let q1 := if bonusXp then add_bonus_xp_opportunities qr.1 c progressOpt else qr.1
    let q2 := if timeAdjustment then add_time_based_adjustments q1 c else q1
    let more := buildStandardQuestions progressOpt byCat numChoices
      differentialMode bonusXp timeAdjustment rest (idx + 1) qr.2
    (.single q2 :: more.1, more.2)

/-- The question-construction loop for multi-case matching questions. -/
def buildMatchingQuestions : List (Case × Case × Case) → Nat → Rng → List Question × Rng
  | [], _, r => ([], r)
  | g :: rest, idx, r =>
    let q := create_multi_case_matching_question g.1 g.2.1 g.2.2 (idx + 1) r
    let more := buildMatchingQuestions rest (idx + 1) q.2
    (.matching q.1 :: more.1, more.2)

/-- Post-shuffle renumbering (`question['question_number'] = i + 1`). -/
def renumberQuestions (qs : List Question) : List Question :=
  qs.enum.map (fun p => setQuestionNumber p.2 (p.1 + 1))

/-- The body of `QuizGenerator.generate_quiz` up to (but excluding) the
timestamped metadata record: seeding, config adjustment, filtering, count
reduction, selection, question construction and shuffling.  Returns the
question list, the effective configuration, the choice count and the feature
flags. -/
def genQuizCore (gen : GeneratorState) (config : QuizConfig) (ambient : Rng) :
    Except String (List Question × QuizConfig × Nat × QuizAdaptiveFeatures) :=
  let r0 := match config.seed with
    | some s => mkRng s
    | none => ambient
  let numQuestions0 := config.num_questions.getD 10
  let numChoices := config.num_choices.getD 4
  let shuffleFlag := config.shuffle.getD true
  let adaptiveMode := config.adaptive_mode.getD false
  let differentialMode := config.differential_mode.getD false
  let multiCaseMatching := config.multi_case_matching.getD false
  let streakSequencing := config.streak_sequencing.getD false
  let timeAdjustment := config.time_adjustment.getD false
  let bonusXp := config.bonus_xp_opportunities.getD false
  let eff := effectiveConfig gen.user_progress config
  let filtered := get_filtered_cases gen.cases eff
  match filtered with
  | [] => .error "No cases match the specified criteria"
  | _ :: _ =>
    let nq1 := min numQuestions0 filtered.length
    let pair2 :=
      if multiCaseMatching then
        (if filtered.length < nq1 * 3 then
          (filtered.length / 3, (filtered.length / 3) * 3)
         else (nq1, nq1 * 3))
      else (nq1, nq1)
    -- the second `len < cases_needed` guard of the source is provably dead
    -- (cases_needed never exceeds the pool here); kept for fidelity
    let casesNeeded := if filtered.length < pair2.2 then filtered.length else pair2.2
    let sel :=
      if adaptiveMode ∧ gen.user_progress.isSome then
        adaptive_case_selection gen.user_progress filtered casesNeeded r0
      else if streakSequencing ∧ gen.user_progress.isSome then
        streak_based_sequencing gen.user_progress filtered casesNeeded r0
      else pySample casesNeeded filtered r0
    let byCat := diagnosisByCategory gen.diagnoses
    let built :=
      if multiCaseMatching then buildMatchingQuestions (chunks3 sel.1) 0 sel.2
      else buildStandardQuestions gen.user_progress byCat numChoices
        differentialMode bonusXp timeAdjustment sel.1 0 sel.2
    let shuffled :=
      if shuffleFlag then
        (let sh := pyShuffle built.1 built.2
         renumberQuestions sh.1)
      else built.1
    .ok (shuffled, eff, numChoices,
      ⟨adaptiveMode, differentialMode, multiCaseMatching, streakSequencing,
       timeAdjustment, bonusXp⟩)

/-- Model of `QuizGenerator.generate_quiz`.  `ambient` is the process-wide
generator state used when no seed is configured; `now` is the
`datetime.now().isoformat()` timestamp embedded in the metadata. -/
def generate_quiz (gen : GeneratorState) (config : QuizConfig) (ambient : Rng)
    (now : String) : Except String QuizData :=
  match genQuizCore gen config ambient with
  | .error e => .error e
  | .ok res =>
    .ok { quiz_metadata :=
            { total_questions := res.1.length
              num_choices := res.2.2.1
              configuration := res.2.1
              generated_at := now
              adaptive_features := res.2.2.2 }
          questions := res.1 }

/-! ### REST-layer clamping (`src/api/quiz.py`, route `POST /generate`) -/

/-- The question-count clamp performed by the REST route before calling
`generate_quiz`: `min(data.get('num_questions', 10), 50)`. -/
def apiNumQuestions (requested : Option Nat) : Nat := min (requested.getD 10) 50

/-- The choice-count clamp performed by the REST route:
`min(max(data.get('num_choices', 4), 2), 6)`. -/
def apiNumChoices (requested : Option Nat) : Nat := min (max (requested.getD 4) 2) 6

/-! ## Scoring engine (`src/modules/scoring.py`) -/

/-- The scoring policy fixed at construction. -/
inductive ScoringMode where
  | strict
  | lenient
  | partialCredit
deriving DecidableEq

/-- The `partial_credit_config` dictionary with its constructor defaults. -/
structure PartialCreditConfig where
  category_match_bonus : ℚ := 1/4
  age_group_match_bonus : ℚ := 3/20
  complexity_match_bonus : ℚ := 1/10
  similarity_threshold : ℚ := 7/10
deriving DecidableEq

/-- Model of `Scoring._evaluate_strict`: trimmed, lowercased exact equality.
Returns `(is_correct, score, feedback)`. -/
def evaluate_strict (userAnswer correctAnswer : String) : Bool × ℚ × String :=
  if pyLower (pyStrip userAnswer) = pyLower (pyStrip correctAnswer) then
    (true, 1, "Correct! Well done.")
  else
    (false, 0, "Incorrect. The correct answer is: " ++ correctAnswer)

/-- The source's float comparison `overlap / len(correct_words) >= 0.8`,
made exact: CPython divides the two integers to the correctly rounded
double and compares against the double literal `0.8 = 3602879701896397/2^52`.
Rounding is monotone, and the tie midpoint `7205759403792793/2^53` just
below that literal rounds down to its even neighbour, so the comparison
succeeds exactly when `o/c` exceeds the midpoint.  (It agrees with the exact
`o/c ≥ 4/5` whenever `c ≤ 3002399751580330`, see `lenientRatioOk_iff`.) -/
def lenientRatioOk (o c : Nat) : Prop :=
  7205759403792793 * c < 9007199254740992 * o

instance (o c : Nat) : Decidable (lenientRatioOk o c) := Nat.decLt _ _

/-- Model of `Scoring._evaluate_lenient`: exact match after trim/lowercase,
or at least 80% of the correct answer's words (as a set) present among the
submission's words; both word sets must be non-empty for the overlap branch.
The 80% test is the source's IEEE-double comparison, made exact by
`lenientRatioOk`. -/
def evaluate_lenient (userAnswer correctAnswer : String) : Bool × ℚ × String :=
  let userClean := pyLower (pyStrip userAnswer)
  let correctClean := pyLower (pyStrip correctAnswer)
  if userClean = correctClean then (true, 1, "Correct! Well done.")
  else
    let userWords := wordSet userClean
    let correctWords := wordSet correctClean
    if correctWords ≠ ∅ ∧ userWords ≠ ∅ ∧
        lenientRatioOk ((userWords ∩ correctWords).card) correctWords.card then
      (true, 1, "Correct! (Recognized similarity to: " ++ correctAnswer ++ ")")
    else
      (false, 0, "Incorrect. The correct answer is: " ++ correctAnswer)

/-- Model of `Scoring._calculate_diagnosis_similarity`: the Jaccard
coefficient of the lowercase word sets (the memoisation cache is a pure
optimisation). -/
def diagnosis_similarity (d1 d2 : String) : ℚ :=
  let words1 := wordSet (pyLower d1)
  let words2 := wordSet (pyLower d2)
  if words1 = ∅ ∨ words2 = ∅ then 0
  else ((words1 ∩ words2).card : ℚ) / ((words1 ∪ words2).card : ℚ)

/-- Model of `Scoring._evaluate_partial` (the question's
`case_metadata['category']` is passed in directly).  Returns
`(is_correct, score, feedback, partial_credit_reason)`. -/
def evaluate_partial (cfg : PartialCreditConfig) (userAnswer correctAnswer category : String) :
    Bool × ℚ × String × Option String :=
  let userClean := pyLower (pyStrip userAnswer)
  let correctClean := pyLower (pyStrip correctAnswer)
  if userClean = correctClean then (true, 1, "Correct! Well done.", none)
  else
    let categoryKeywords := pySplitOn category '_'
    let catHit := categoryKeywords.find? (fun k => pyContains userClean k)
    let score1 : ℚ := if catHit.isSome then cfg.category_match_bonus else 0
    let reasons1 : List String :=
      if catHit.isSome then ["Correct category: " ++ category] else []
    let similarity := diagnosis_similarity userAnswer correctAnswer
    let score2 := if cfg.similarity_threshold ≤ similarity then score1 + similarity * (1/2) else score1
    let reasons2 :=
      if cfg.similarity_threshold ≤ similarity then
        reasons1 ++ ["Similar diagnosis (" ++ fmt2 similarity ++ ")"]
      else reasons1
    let score := min score2 1
    let partialReason := if reasons2.isEmpty then none
      else some (String.intercalate "; " reasons2)
    if 0 < score then
      (false, score,
       "Partial credit (" ++ fmt2 score ++ "/1.0). " ++ String.intercalate ", " reasons2 ++
         ". Correct answer: " ++ correctAnswer,
       partialReason)
    else
      (false, 0, "Incorrect. The correct answer is: " ++ correctAnswer, none)

/-- A recorded answer (`self.user_answers[q]`). -/
structure AnswerRecord where
  answer : String
  time_spent : ℚ
  timestamp : String
deriving DecidableEq

/-- The per-question evaluation outcome (`QuestionResult` dataclass). -/
structure QuestionResult where
  question_number : Nat
  case_id : String
  user_answer : Option String
  correct_answer : String
  is_correct : Bool
  score : ℚ
  max_score : ℚ
  time_spent : ℚ
  category : Option String
  age_group : Option String
  complexity : Option String
  feedback : String
  partial_credit_reason : Option String := none
deriving DecidableEq

/-- The session state of a `Scoring` object.  The quiz held by a session is
its single-case question list (the source stores the full quiz dictionary;
multi-case questions lack the fields `_evaluate_question` reads and would
crash it, so scoring sessions are modelled over standard-shaped questions).
Answers are keyed by ordinal, `none` meaning "never recorded". -/
structure ScoringState where
  scoring_mode : ScoringMode
  partial_credit_config : PartialCreditConfig
  quiz_questions : Option (List StdQuestion)
  user_answers : Nat → Option AnswerRecord
  question_start_times : Nat → Option ℚ

/-- Model of `Scoring.record_answer` (with an explicitly supplied elapsed
time, as the claims exercise; `nowClock` feeds the fallback timer
computation and `nowIso` the stored timestamp). -/
def record_answer (s : ScoringState) (questionNumber : Nat) (userAnswer : String)
    (answerTime : Option ℚ) (nowClock : ℚ) (nowIso : String) :
    Except String ScoringState :=
  match s.quiz_questions with
  | none => .error "Quiz session not started. Call start_quiz_session() first."
  | some qs =>
    if questionNumber < 1 ∨ qs.length < questionNumber then
      .error ("Invalid question number: " ++ toString questionNumber)
    else
      let t := match answerTime with
        | some t => t
        | none =>
          match s.question_start_times questionNumber with
          | some st => nowClock - st
          | none => 0
      .ok { s with user_answers := fun n =>
              if n = questionNumber then some ⟨userAnswer, t, nowIso⟩
              else s.user_answers n }

/-- Model of `Scoring._evaluate_question` for one answered question. -/
def evaluate_question (mode : ScoringMode) (cfg : PartialCreditConfig)
    (q : StdQuestion) (rec : AnswerRecord) : QuestionResult :=
  let base := fun (isCorrect : Bool) (score : ℚ) (feedback : String)
      (partialReason : Option String) =>
    QuestionResult.mk q.question_number q.case_id (some rec.answer) q.correct_answer
      isCorrect score 1 rec.time_spent q.case_metadata.category q.case_metadata.age_group
      q.case_metadata.complexity feedback partialReason
  match mode with
  | .strict =>
    let e := evaluate_strict rec.answer q.correct_answer
    base e.1 e.2.1 e.2.2 none
  | .lenient =>
    let e := evaluate_lenient rec.answer q.correct_answer
    base e.1 e.2.1 e.2.2 none
  | .partialCredit =>
    -- `question['case_metadata']['category']`; an absent category would raise
    -- in the source, the claims only exercise present categories
    let e := evaluate_partial cfg rec.answer q.correct_answer
      (q.case_metadata.category.getD "")
    base e.1 e.2.1 e.2.2.1 e.2.2.2

/-- Model of `Scoring._create_unanswered_result`. -/
def create_unanswered_result (q : StdQuestion) : QuestionResult :=
  QuestionResult.mk q.question_number q.case_id none q.correct_answer false 0 1 0
    q.case_metadata.category q.case_metadata.age_group q.case_metadata.complexity
    "Question not answered" none

/-- Model of `Scoring._evaluate_all_questions` (returning the results list it
stores). -/
def evaluate_all_questions (s : ScoringState) : List QuestionResult :=
  match s.quiz_questions with
  | none => []
  | some qs =>
    qs.map fun q =>
      match s.user_answers q.question_number with
      | none => create_unanswered_result q
      | some rec => evaluate_question s.scoring_mode s.partial_credit_config q rec


/-! ## Concrete instances used by witnesses and counterexamples -/

/-- Modelled from the spec's wording of the lenient rule (claim C3): exact
match after trim/lowercase, or at least 80% of the correct answer's words
present in the submission (overlap over the correct answer's word count,
which requires both word sets non-empty). -/
def lenientCorrectSpec (userAnswer correctAnswer : String) : Prop :=
  pyLower (pyStrip userAnswer) = pyLower (pyStrip correctAnswer) ∨
  (wordSet (pyLower (pyStrip correctAnswer)) ≠ ∅ ∧
   wordSet (pyLower (pyStrip userAnswer)) ≠ ∅ ∧
   5 * (wordSet (pyLower (pyStrip userAnswer)) ∩
        wordSet (pyLower (pyStrip correctAnswer))).card ≥
     4 * (wordSet (pyLower (pyStrip correctAnswer))).card)

/-- A concrete catalog whose first achievement's reward is large enough to
cross the level-10 milestone, with `level_10` itself present and unearned, so
its award cascades. -/
def c9Catalog : List Achievement :=
  [⟨"case_explorer", "Case Explorer", "Complete many cases", "progression", 7500, "gold", "star"⟩,
   ⟨"level_10", "Level 10", "Reach level 10", "progression", 50, "silver", "medal"⟩]

/-- A fresh progression state over `c9Catalog`. -/
def c9State : ProgressState :=
  { user_id := "u1", username := "alex", level := 1, total_xp := 0, xp_to_next_level := 100,
    achievements := c9Catalog, earned_achievements := [], specialties := [],
    streak_data := ⟨0, 0, none, none, 1⟩, recent_performance := [],
    unlock_status := ⟨["beginner"], [], [], []⟩, difficulty_tiers := [] }

/-- A one-question quiz used by the concrete scoring witness. -/
def w10Question : StdQuestion :=
  { question_number := 1, case_id := "c1", question_text := "q",
    question_type := "standard", options := [], correct_answer := "A",
    correct_index := 0, explanation := "e", reference := "r",
    case_metadata := ⟨some "X", some "adult", some "easy"⟩ }

/-- A started strict-mode session over `w10Question`. -/
def w10Session : ScoringState :=
  { scoring_mode := .strict, partial_credit_config := {},
    quiz_questions := some [w10Question],
    user_answers := fun _ => none, question_start_times := fun _ => none }

/-- Extract the payload of a successful generation run (the concrete runs
below all succeed, so the default is never consulted). -/
def getOkQuiz (x : Except String QuizData) (d : QuizData) : QuizData :=
  match x with
  | .ok q => q
  | .error _ => d

/-- A placeholder quiz supplying the `getOkQuiz` default. -/
def emptyQuizData : QuizData :=
  { quiz_metadata :=
      { total_questions := 0, num_choices := 0, configuration := {},
        generated_at := "", adaptive_features := ⟨false, false, false, false, false, false⟩ },
    questions := [] }

/-- The option labels of a generated question. -/
def questionOptionTexts : Question → List String
  | .single q => q.options.map (fun o => o.text)
  | .matching m => m.diagnosis_options.map (fun o => o.text)

/-- One displayed option text decorates one base diagnosis label: it is
either the label itself or — when the case's category/age-group pair has a
clinical-specifier list — the label with one comma-appended specifier from
that list, exactly as `_add_clinical_specifiers` writes it. -/
def decoratesTo (specs : Option (List String)) (b t : String) : Prop :=
  t = b ∨ ∃ specList, specs = some specList ∧ ∃ sp ∈ specList, t = b ++ ", " ++ sp

/-- A demonstration case (Depressive Disorders). -/
def demoCase1 : Case :=
  { case_id := "C001", diagnosis := "Major Depressive Disorder",
    category := some "Depressive Disorders" }

/-- A demonstration case (Anxiety Disorders). -/
def demoCase2 : Case :=
  { case_id := "C002", diagnosis := "Generalized Anxiety Disorder",
    category := some "Anxiety Disorders" }

/-- A further anxiety-category demonstration case. -/
def demoCase3 : Case :=
  { case_id := "C003", diagnosis := "Panic Disorder",
    category := some "Anxiety Disorders" }

/-- A seven-entry diagnosis catalog spanning four categories. -/
def demoDiagnoses : List Diagnosis :=
  [⟨"Major Depressive Disorder", some "Depressive Disorders"⟩,
   ⟨"Persistent Depressive Disorder", some "Depressive Disorders"⟩,
   ⟨"Generalized Anxiety Disorder", some "Anxiety Disorders"⟩,
   ⟨"Panic Disorder", some "Anxiety Disorders"⟩,
   ⟨"Social Anxiety Disorder", some "Anxiety Disorders"⟩,
   ⟨"Bipolar I Disorder", some "Bipolar and Related Disorders"⟩,
   ⟨"Schizophrenia", some "Schizophrenia Spectrum and Other Psychotic Disorders"⟩]

/-- A generator over the three demonstration cases, with no user progress. -/
def demoGen : GeneratorState :=
  ⟨[demoCase1, demoCase2, demoCase3], demoDiagnoses, none⟩

/-- A configuration requesting more questions than the pool holds. -/
def c7Config : QuizConfig := { num_questions := some 5, seed := some 0 }

/-- A one-question configuration demanding seven answer choices. -/
def c4Config : QuizConfig :=
  { num_questions := some 1, num_choices := some 7, shuffle := some false, seed := some 0 }

/-- The quiz produced for `c4Config` (generation succeeds, see
`C4_counterexample`). -/
def c4Result : QuizData :=
  getOkQuiz (generate_quiz demoGen c4Config (mkRng 0) "t") emptyQuizData

/-- A seeded two-question configuration. -/
def c1Config : QuizConfig := { num_questions := some 2, seed := some 42 }

/-- The quiz generated at one timestamp. -/
def c1Quiz1 : QuizData :=
  getOkQuiz (generate_quiz demoGen c1Config (mkRng 0) "2024-01-01T00:00:00") emptyQuizData

/-- The quiz generated under identical inputs at a later timestamp. -/
def c1Quiz2 : QuizData :=
  getOkQuiz (generate_quiz demoGen c1Config (mkRng 0) "2024-01-01T00:00:01") emptyQuizData

/-- A case whose catalog (below) lists a duplicate distractor name. -/
def c6Case : Case :=
  { case_id := "CX", diagnosis := "Condition X", category := some "Cat" }

/-- A generator whose diagnosis catalog contains the same name twice. -/
def c6Gen : GeneratorState :=
  ⟨[c6Case],
   [⟨"Condition X", some "Cat"⟩, ⟨"Condition Y", some "Cat"⟩, ⟨"Condition Y", some "Cat"⟩],
   none⟩

/-- A one-question three-choice configuration without question shuffling. -/
def c6Config : QuizConfig :=
  { num_questions := some 1, num_choices := some 3, shuffle := some false, seed := some 0 }

/-- The quiz produced over the duplicate-bearing catalog. -/
def c6Quiz : QuizData :=
  getOkQuiz (generate_quiz c6Gen c6Config (mkRng 0) "t") emptyQuizData

/-- A case in a specifier-bearing category, used by the
distractor-uniqueness witness (its options can be decorated by
`_add_clinical_specifiers`). -/
def c6wCase : Case :=
  { case_id := "CW", diagnosis := "Condition X",
    category := some "Depressive Disorders" }

/-- A duplicate-free one-category mapping used by the distractor-uniqueness
witness. -/
def c6wByCat : List (String × List String) :=
  [("Depressive Disorders", ["Condition X", "Condition Y", "Condition Z"])]

/-! ## Lemmas about the levelling arithmetic -/

theorem log2fuel_le : ∀ (fuel n : Nat), 0 < n → n ≤ fuel → 2 ^ log2fuel fuel n ≤ n := by
  intro fuel
  induction fuel with
  | zero => intro n h1 h2; omega
  | succ f ih =>
    intro n h1 h2
    simp only [log2fuel]
    by_cases h : 2 ≤ n
    · rw [if_pos h]
      have hrec := ih (n / 2) (by omega) (by omega)
      rw [pow_succ]
      omega
    · rw [if_neg h]
      simpa using h1

theorem natLog2_le (n : Nat) (h : 0 < n) : 2 ^ natLog2 n ≤ n :=
  log2fuel_le n n h le_rfl

/-- Rounding a positive significand to 53 bits loses less than a factor of
two (a crude bound, enough to keep every threshold above its floor/2). -/
theorem rnd53_lb (m : Nat) (h : 0 < m) :
    m < 2 * ((rnd53 m).1 * 2 ^ (rnd53 m).2) := by
  by_cases hm : m < 2 ^ 53
  · have hv : (rnd53 m).1 * 2 ^ (rnd53 m).2 = m := by
      unfold rnd53
      rw [if_pos hm]
      simp
    rw [hv]
    omega
  · simp only [rnd53, if_neg hm]
    set s := natLog2 m - 52 with hsdef
    have hsle : s ≤ natLog2 m := by omega
    have h2pos : 0 < 2 ^ s := Nat.pos_pow_of_pos _ (by omega)
    have h2s : 2 ^ s ≤ m :=
      le_trans (Nat.pow_le_pow_right (by omega) hsle) (natLog2_le m h)
    have hdm := Nat.div_add_mod m (2 ^ s)
    have hmod : m % 2 ^ s < 2 ^ s := Nat.mod_lt m h2pos
    have hq1 : 1 ≤ m / 2 ^ s := (Nat.one_le_div_iff h2pos).2 h2s
    set q := m / 2 ^ s with hqdef
    set r := m % 2 ^ s with hrdef
    set M := if 2 ^ s < 2 * r then q + 1 else if 2 * r < 2 ^ s then q else q + q % 2
      with hMdef
    have hM : q ≤ M := by
      rw [hMdef]
      split
      · omega
      · split
        · omega
        · omega
    calc m = 2 ^ s * q + r := hdm.symm
      _ < 2 ^ s * q + 2 ^ s := by omega
      _ = 2 ^ s * (q + 1) := by ring
      _ ≤ 2 ^ s * (q + q) := Nat.mul_le_mul_left _ (by omega)
      _ = 2 * (q * 2 ^ s) := by ring
      _ ≤ 2 * (M * 2 ^ s) :=
          Nat.mul_le_mul_left _ (Nat.mul_le_mul_right _ hM)

theorem rnd53_pos (m : Nat) (h : 0 < m) : 0 < (rnd53 m).1 := by
  have hb := rnd53_lb m h
  by_contra h0
  have hz : (rnd53 m).1 = 0 := by omega
  rw [hz] at hb
  simp only [Nat.zero_mul, Nat.mul_zero] at hb
  omega

theorem pow3_ge (k : Nat) (h : 4 ≤ k) : 2 ^ (k + 2) ≤ 3 ^ k := by
  induction k with
  | zero => omega
  | succ n ih =>
    by_cases h4 : 4 ≤ n
    · have hn := ih h4
      calc 2 ^ (n + 1 + 2) = 2 ^ (n + 2) * 2 := by ring
        _ ≤ 3 ^ n * 3 := by omega
        _ = 3 ^ (n + 1) := by ring
    · have hn3 : n = 3 := by omega
      subst hn3
      decide

theorem xpThreshold_ge (level : Nat) : 100 ≤ xpThreshold level := by
  match level with
  | 0 => decide
  | 1 => decide
  | 2 => decide
  | 3 => decide
  | 4 => decide
  | n + 5 =>
    simp only [xpThreshold]
    have hk : n + 5 - 1 = n + 4 := by omega
    rw [hk]
    set P1 := (rnd53 (3 ^ (n + 4))).1 with hP1
    set E1 := (rnd53 (3 ^ (n + 4))).2 with hE1
    set Q1 := (rnd53 (100 * P1)).1 with hQ1
    set E2 := (rnd53 (100 * P1)).2 with hE2
    have h3pos : 0 < 3 ^ (n + 4) := Nat.pos_pow_of_pos _ (by omega)
    have hlb1 : 3 ^ (n + 4) < 2 * (P1 * 2 ^ E1) := rnd53_lb _ h3pos
    have hP1pos : 0 < P1 := rnd53_pos _ h3pos
    have hlb2 : 100 * P1 < 2 * (Q1 * 2 ^ E2) := rnd53_lb _ (by omega)
    have h3 : 100 * P1 * 2 ^ E1 < 2 * (Q1 * 2 ^ E2) * 2 ^ E1 :=
      mul_lt_mul_of_pos_right hlb2 (Nat.pos_pow_of_pos _ (by omega))
    have hB : 100 * (P1 * 2 ^ E1) < 2 * (Q1 * 2 ^ (E2 + E1)) := by
      calc 100 * (P1 * 2 ^ E1) = 100 * P1 * 2 ^ E1 := by ring
        _ < 2 * (Q1 * 2 ^ E2) * 2 ^ E1 := h3
        _ = 2 * (Q1 * 2 ^ (E2 + E1)) := by ring
    have hA4 : 4 * 2 ^ (n + 4) ≤ 3 ^ (n + 4) := by
      have := pow3_ge (n + 4) (by omega)
      calc 4 * 2 ^ (n + 4) = 2 ^ (n + 4 + 2) := by ring
        _ ≤ 3 ^ (n + 4) := this
    have h2pos : 0 < 2 ^ (n + 4) := Nat.pos_pow_of_pos _ (by omega)
    rw [Nat.le_div_iff_mul_le h2pos]
    omega

theorem levelLoop_stable :
    ∀ (f : Nat) (f' : Nat) (xp : Int) (level : Nat),
      xp.toNat < 100 * f → f ≤ f' → levelLoop f xp level = levelLoop f' xp level := by
  intro f
  induction f with
  | zero => intro f' xp level h _; omega
  | succ n ih =>
    intro f' xp level h hle
    match f' with
    | 0 => omega
    | m + 1 =>
      simp only [levelLoop]
      by_cases hc : (xpThreshold level : Int) ≤ xp
      · simp only [hc, if_true]
        have ht := xpThreshold_ge level
        have hx : (xp - xpThreshold level).toNat < 100 * n := by omega
        exact ih m _ _ hx (by omega)
      · simp only [hc, if_false]

theorem levelLoop_ge :
    ∀ (f : Nat) (xp : Int) (level : Nat), level ≤ levelLoop f xp level := by
  intro f
  induction f with
  | zero => intro xp level; exact Nat.le_refl _
  | succ n ih =>
    intro xp level
    simp only [levelLoop]
    by_cases hc : (xpThreshold level : Int) ≤ xp
    · simp only [hc, if_true]
      exact Nat.le_trans (Nat.le_succ _) (ih _ _)
    · simp only [hc, if_false]
      exact Nat.le_refl _

theorem levelLoop_mono :
    ∀ (f : Nat) (xp xp' : Int) (level : Nat),
      xp ≤ xp' → levelLoop f xp level ≤ levelLoop f xp' level := by
  intro f
  induction f with
  | zero => intro xp xp' level _; exact Nat.le_refl _
  | succ n ih =>
    intro xp xp' level hle
    simp only [levelLoop]
    by_cases hc' : (xpThreshold level : Int) ≤ xp'
    · simp only [hc', if_true]
      by_cases hc : (xpThreshold level : Int) ≤ xp
      · simp only [hc, if_true]
        exact ih _ _ _ (by omega)
      · simp only [hc, if_false]
        exact Nat.le_trans (Nat.le_succ _) (levelLoop_ge _ _ _)
    · have hc : ¬ (xpThreshold level : Int) ≤ xp := by omega
      simp only [hc, hc', if_false]
      exact Nat.le_refl _

theorem calculate_level_from_xp_mono (a b : Int) (h : a ≤ b) :
    calculate_level_from_xp a ≤ calculate_level_from_xp b := by
  unfold calculate_level_from_xp
  have ha : a.toNat < 100 * (a.toNat / 100 + 1) := by omega
  have hfle : a.toNat / 100 + 1 ≤ b.toNat / 100 + 1 := by omega
  rw [levelLoop_stable (a.toNat / 100 + 1) (b.toNat / 100 + 1) a 1 ha hfle]
  exact levelLoop_mono _ _ _ _ h

set_option maxRecDepth 100000 in
/-- The float-computed threshold coincides with the exact floor for every
level up to 76 (all these fit the 53-bit significand closely enough). -/
theorem threshold_agree : ∀ l, l < 77 → xpThreshold l = specXpToAdvance l := by decide

set_option maxRecDepth 100000 in
/-- At level 77 the float-computed threshold first exceeds the exact floor
(by one: 2415103171470709 against 2415103171470708). -/
theorem threshold77 : specXpToAdvance 77 ≤ xpThreshold 77 := by decide

/-- Below the sum of the first 77 exact thresholds, the float-threshold loop
and the spec's exact loop take identical steps: thresholds agree up to level
76 and neither loop can cross level 77 with the remaining XP. -/
theorem levelLoop_eq_spec_below :
    ∀ (f1 f2 xp : Nat) (level : Nat), xp < 100 * f1 → xp < f2 →
      xp < specSumFrom (78 - level) level →
      levelLoop f1 (xp : Int) level = specLevelStep f2 xp level := by
  intro f1
  induction f1 with
  | zero => intro f2 xp level h _ _; omega
  | succ n ih =>
    intro f2 xp level h1 h2 hsum
    match f2 with
    | 0 => omega
    | m + 1 =>
      simp only [levelLoop, specLevelStep]
      have hlev77 : level ≤ 77 := by
        by_contra hgt
        have hz : 78 - level = 0 := by omega
        rw [hz] at hsum
        simp [specSumFrom] at hsum
      by_cases hle76 : level ≤ 76
      · have hT : xpThreshold level = specXpToAdvance level :=
          threshold_agree level (by omega)
        have hunf : specSumFrom (78 - level) level =
            specXpToAdvance level + specSumFrom (78 - (level + 1)) (level + 1) := by
          have hrw : 78 - level = (78 - (level + 1)) + 1 := by omega
          rw [hrw]
          rfl
        have hceq : ((xpThreshold level : Int) ≤ (xp : Int)) ↔ specXpToAdvance level ≤ xp := by
          rw [hT]
          exact_mod_cast Iff.rfl
        by_cases hc : specXpToAdvance level ≤ xp
        · have hc' : (xpThreshold level : Int) ≤ (xp : Int) := hceq.mpr hc
          simp only [hc, hc', if_true]
          have ht : 100 ≤ xpThreshold level := xpThreshold_ge level
          have hcast : (xp : Int) - (xpThreshold level : Int) =
              ((xp - xpThreshold level : Nat) : Int) := by
            omega
          rw [hcast, hT]
          refine ih m (xp - specXpToAdvance level) (level + 1) (by omega) (by omega) ?_
          omega
        · have hc' : ¬ (xpThreshold level : Int) ≤ (xp : Int) := fun hx => hc (hceq.mp hx)
          simp only [hc, hc', if_false]
      · have hlev : level = 77 := by omega
        subst hlev
        have hsum77 : xp < specXpToAdvance 77 := by
          have hrw : (78 : Nat) - 77 = 0 + 1 := by omega
          rw [hrw] at hsum
          simp only [specSumFrom] at hsum
          omega
        have hc : ¬ specXpToAdvance 77 ≤ xp := by omega
        have hc' : ¬ (xpThreshold 77 : Int) ≤ (xp : Int) := by
          have h77 := threshold77
          omega
        simp only [hc, hc', if_false]

set_option maxRecDepth 100000 in
/-- Agreement of the program's level with the spec procedure on every total
XP up to `7245309514411892` (the sum of the 76 shared thresholds plus the
level-77 exact threshold, less one). -/
theorem calculate_level_eq_spec_below (xp : Nat) (h : xp ≤ 7245309514411892) :
    calculate_level_from_xp (xp : Int) = specLevelFromXp xp := by
  unfold calculate_level_from_xp specLevelFromXp
  have htn : ((xp : Int)).toNat = xp := Int.toNat_ofNat xp
  rw [htn]
  refine levelLoop_eq_spec_below (xp / 100 + 1) (xp + 1) xp 1 (by omega) (by omega) ?_
  have hS : specSumFrom (78 - 1) 1 = 7245309514411893 := by decide
  omega

/-! ## Invariants of the achievement/XP recursion -/

theorem updateLevelUnlocks_streak (s : ProgressState) :
    (updateLevelUnlocks s).streak_data = s.streak_data := rfl

theorem updateLevelUnlocks_level (s : ProgressState) :
    (updateLevelUnlocks s).level = s.level := rfl

theorem updateLevelUnlocks_total (s : ProgressState) :
    (updateLevelUnlocks s).total_xp = s.total_xp := rfl

/-- Joint fuel induction: `award_achievement` and `add_xp` never touch the
streak data, and both maintain the invariant that the stored level is the
level recomputed from the stored total XP (`add_xp` establishes it whenever
it has fuel to run at all). -/
theorem progressFuelProps : ∀ fuel : Nat,
    (∀ achievementId now s,
      (awardF fuel achievementId now s).2.streak_data = s.streak_data ∧
      (s.level = calculate_level_from_xp s.total_xp →
        (awardF fuel achievementId now s).2.level =
          calculate_level_from_xp (awardF fuel achievementId now s).2.total_xp)) ∧
    (∀ amount now s,
      (addXpF fuel amount now s).2.streak_data = s.streak_data ∧
      ((fuel = 0 → s.level = calculate_level_from_xp s.total_xp) →
        (addXpF fuel amount now s).2.level =
          calculate_level_from_xp (addXpF fuel amount now s).2.total_xp)) := by
  intro fuel
  induction fuel with
  | zero =>
    refine ⟨fun achievementId now s => ⟨rfl, fun h => ?_⟩,
            fun amount now s => ⟨rfl, fun h => ?_⟩⟩
    · simpa [awardF] using h
    · simpa [addXpF] using h rfl
  | succ n ih =>
    obtain ⟨ihAward, ihAdd⟩ := ih
    have hstreakA : ∀ achievementId now t,
        (awardF n achievementId now t).2.streak_data = t.streak_data :=
      fun achievementId now t => (ihAward achievementId now t).1
    have hinvA : ∀ achievementId now t, t.level = calculate_level_from_xp t.total_xp →
        (awardF n achievementId now t).2.level =
          calculate_level_from_xp (awardF n achievementId now t).2.total_xp :=
      fun achievementId now t => (ihAward achievementId now t).2
    have hstreakX : ∀ amount now t,
        (addXpF n amount now t).2.streak_data = t.streak_data :=
      fun amount now t => (ihAdd amount now t).1
    constructor
    · intro achievementId now s
      simp only [awardF]
      cases hfind : s.achievements.find? (fun a => a.id = achievementId) with
      | none => exact ⟨rfl, fun h => h⟩
      | some ach =>
        dsimp only
        by_cases hearned : achievementId ∈ earnedIds s
        · rw [if_pos hearned]
          exact ⟨rfl, fun h => h⟩
        · rw [if_neg hearned]
          constructor
          · simp only [hstreakX]
          · intro h
            exact (ihAdd ach.xp_reward now _).2 (fun _ => h)
    · intro amount now s
      simp only [addXpF]
      by_cases hlev : s.level < calculate_level_from_xp (s.total_xp + amount)
      · rw [if_pos hlev]
        constructor
        · repeat' split
          all_goals simp [hstreakA, updateLevelUnlocks_streak]
        · intro _
          simp only [updateLevelUnlocks_level, updateLevelUnlocks_total]
          repeat' split
          all_goals
            first
              | rfl
              | exact hinvA _ _ _ rfl
              | exact hinvA _ _ _ (hinvA _ _ _ rfl)
              | exact hinvA _ _ _ (hinvA _ _ _ (hinvA _ _ _ rfl))
      · rw [if_neg hlev]
        exact ⟨rfl, fun _ => rfl⟩

/-! ## Claim theorems -/

set_option maxRecDepth 1000000 in
/-- C2 counterexample: the claim's universally quantified equality with the
spec's repeated-subtraction procedure fails.  `1.5 ** 76` no longer fits the
53-bit double significand, so `int(100 * 1.5 ** 76)` (2415103171470709)
exceeds the exact floor (2415103171470708) by one, and at total XP
7245309514411893 — one more than the 76 shared thresholds plus the exact
level-77 threshold — the program is still at level 77 while the spec
procedure reaches level 78. -/
theorem C2_counterexample :
    calculate_level_from_xp ((7245309514411893 : Nat) : Int) ≠
      specLevelFromXp 7245309514411893 := by decide

/-- C2 (amended): for every total XP up to 7245309514411892 (far beyond any
reachable play, but not beyond a single large `add_xp` call), the level
computed by `_calculate_level_from_xp` equals the spec's
repeated-subtraction procedure — the IEEE-double thresholds
`int(100 * 1.5 ** (L-1))` coincide with the exact floors for all levels
consumed below that bound; `total_xp = 0, 100, 249` give levels `1, 2, 2`;
the level is non-decreasing in total XP without restriction; and after any
`add_xp` call the stored level is exactly `_calculate_level_from_xp` of the
stored total.  Beyond the bound the float thresholds drift from the exact
floors (first at level 77) and the two procedures genuinely diverge. -/
theorem C2_leveling_curve :
    (∀ xp : Nat, xp ≤ 7245309514411892 →
      calculate_level_from_xp (xp : Int) = specLevelFromXp xp) ∧
    calculate_level_from_xp 0 = 1 ∧
    calculate_level_from_xp 100 = 2 ∧
    calculate_level_from_xp 249 = 2 ∧
    (∀ a b : Nat, a ≤ b →
      calculate_level_from_xp (a : Int) ≤ calculate_level_from_xp (b : Int)) ∧
    (∀ (amount : Int) (now : String) (s : ProgressState),
      (add_xp amount now s).2.level =
        calculate_level_from_xp (add_xp amount now s).2.total_xp) := by
  refine ⟨calculate_level_eq_spec_below, by decide, by decide, by decide, ?_, ?_⟩
  · intro a b h
    exact calculate_level_from_xp_mono _ _ (by exact_mod_cast h)
  · intro amount now s
    exact ((progressFuelProps 8).2 amount now s).2 (fun h => absurd h (by decide))

/-- Witness for C2 at concrete inputs: spec agreement at 1000 XP and
monotonicity at `30 ≤ 700`. -/
theorem C2_leveling_curve_witness :
    calculate_level_from_xp ((1000 : Nat) : Int) = specLevelFromXp 1000 ∧
    calculate_level_from_xp (30 : Nat) ≤ calculate_level_from_xp (700 : Nat) :=
  ⟨C2_leveling_curve.1 1000 (by decide),
   (C2_leveling_curve.2.2.2.2.1) 30 700 (by decide)⟩

/-- C8: After every `update_streak` call the streak multiplier equals the
fixed breakpoint function of the current streak (whose value table at
0,2,3,4,5,9,10,14,15,19,20,25 is as claimed), the longest streak never
decreases, and an incorrect answer resets the current streak to 0 and the
multiplier to 1.0. -/
theorem C8_streak_multiplier :
    (calculate_streak_multiplier 0 = 1 ∧ calculate_streak_multiplier 2 = 1 ∧
     calculate_streak_multiplier 3 = 11/10 ∧ calculate_streak_multiplier 4 = 11/10 ∧
     calculate_streak_multiplier 5 = 5/4 ∧ calculate_streak_multiplier 9 = 5/4 ∧
     calculate_streak_multiplier 10 = 3/2 ∧ calculate_streak_multiplier 14 = 3/2 ∧
     calculate_streak_multiplier 15 = 7/4 ∧ calculate_streak_multiplier 19 = 7/4 ∧
     calculate_streak_multiplier 20 = 2 ∧ calculate_streak_multiplier 25 = 2) ∧
    (∀ (isCorrect : Bool) (today : Nat) (now : String) (s : ProgressState),
      (update_streak isCorrect today now s).2.streak_data.streak_multiplier =
        calculate_streak_multiplier
          (update_streak isCorrect today now s).2.streak_data.current_streak ∧
      (update_streak isCorrect today now s).1 =
        ((update_streak isCorrect today now s).2.streak_data.current_streak,
         (update_streak isCorrect today now s).2.streak_data.streak_multiplier) ∧
      s.streak_data.longest_streak ≤
        (update_streak isCorrect today now s).2.streak_data.longest_streak) ∧
    (∀ (today : Nat) (now : String) (s : ProgressState),
      (update_streak false today now s).1 = (0, 1) ∧
      (update_streak false today now s).2.streak_data.current_streak = 0 ∧
      (update_streak false today now s).2.streak_data.streak_multiplier = 1) := by
  have hstreakPres : ∀ (now : String) (t : ProgressState),
      (check_streak_achievements now t).streak_data = t.streak_data := by
    intro now t
    unfold check_streak_achievements
    split
    · exact ((progressFuelProps 8).1 "perfect_streak" now t).1
    · rfl
  refine ⟨by norm_num [calculate_streak_multiplier], ?_, ?_⟩
  · intro isCorrect today now s
    cases isCorrect with
    | false =>
      refine ⟨?_, ?_, ?_⟩ <;>
        simp [update_streak, calculate_streak_multiplier]
    | true =>
      simp only [update_streak, hstreakPres]
      refine ⟨?_, ?_, ?_⟩ <;>
        (repeat' split) <;>
        simp_all <;> omega
  · intro today now s
    refine ⟨?_, ?_, ?_⟩ <;> simp [update_streak]

theorem updateLevelUnlocks_earned (s : ProgressState) :
    (updateLevelUnlocks s).earned_achievements = s.earned_achievements := rfl

/-- `award_achievement` on an unknown or already-earned id returns `False`
and leaves the state untouched, at any recursion depth. -/
theorem awardF_noop (fuel : Nat) (achievementId now : String) (t : ProgressState)
    (h : t.achievements.find? (fun a => a.id = achievementId) = none ∨
         achievementId ∈ earnedIds t) :
    awardF fuel achievementId now t = (false, t) := by
  match fuel with
  | 0 => rfl
  | n + 1 =>
    cases h with
    | inl hfind => simp [awardF, hfind]
    | inr hearned =>
      cases hf : t.achievements.find? (fun a => a.id = achievementId) with
      | none => simp [awardF, hf]
      | some a => simp [awardF, hf, hearned]

/-- When no level-milestone achievement is awardable (each of the three is
either already earned or absent from the catalog), `add_xp` changes the
earned list not at all and the total XP by exactly the added amount. -/
theorem addXpF_noCascade (fuel : Nat) (amount : Int) (now : String) (t : ProgressState)
    (hm : ∀ m ∈ (["level_10", "level_25", "level_50"] : List String),
      m ∈ earnedIds t ∨ t.achievements.find? (fun a => a.id = m) = none) :
    (addXpF (fuel + 1) amount now t).2.earned_achievements = t.earned_achievements ∧
    (addXpF (fuel + 1) amount now t).2.total_xp = t.total_xp + amount := by
  have conv : ∀ m : String,
      m ∈ earnedIds t ∨ t.achievements.find? (fun a => a.id = m) = none →
      (¬ ∀ x ∈ t.earned_achievements, ¬ x.achievement_id = m) ∨
        t.achievements.find? (fun a => a.id = m) = none := by
    intro m h
    rcases h with h | h
    · left
      intro hall
      rcases List.mem_map.mp h with ⟨x, hx, hid⟩
      exact hall x hx hid
    · right
      exact h
  have h10 := conv "level_10" (hm "level_10" (by simp))
  have h25 := conv "level_25" (hm "level_25" (by simp))
  have h50 := conv "level_50" (hm "level_50" (by simp))
  constructor <;>
  · simp only [addXpF]
    split
    · rcases h10 with h10 | h10 <;> rcases h25 with h25 | h25 <;> rcases h50 with h50 | h50 <;>
        simp [awardF_noop, earnedIds, h10, h25, h50, updateLevelUnlocks, apply_ite]
    · rfl

/-- Neither `award_achievement` nor `add_xp` ever removes an earned record:
the earned list only grows (every write is an append), at any recursion
depth and through any milestone cascade. -/
theorem earnedGrow : ∀ fuel : Nat,
    (∀ (achievementId now : String) (s : ProgressState) (x : UserAchievement),
      x ∈ s.earned_achievements →
      x ∈ (awardF fuel achievementId now s).2.earned_achievements) ∧
    (∀ (amount : Int) (now : String) (s : ProgressState) (x : UserAchievement),
      x ∈ s.earned_achievements →
      x ∈ (addXpF fuel amount now s).2.earned_achievements) := by
  intro fuel
  induction fuel with
  | zero => exact ⟨fun _ _ _ _ hx => hx, fun _ _ _ _ hx => hx⟩
  | succ n ih =>
    obtain ⟨ihA, ihX⟩ := ih
    constructor
    · intro achievementId now s x hx
      simp only [awardF]
      cases hfind : s.achievements.find? (fun a => a.id = achievementId) with
      | none => exact hx
      | some ach =>
        dsimp only
        by_cases hearned : achievementId ∈ earnedIds s
        · rw [if_pos hearned]
          exact hx
        · rw [if_neg hearned]
          exact ihX _ _ _ x (List.mem_append_left _ hx)
    · intro amount now s x hx
      simp only [addXpF]
      split
      · simp only [updateLevelUnlocks_earned]
        repeat' split
        all_goals
          first
            | exact hx
            | exact ihA _ _ _ x hx
            | exact ihA _ _ _ x (ihA _ _ _ x hx)
            | exact ihA _ _ _ x (ihA _ _ _ x (ihA _ _ _ x hx))
      · exact hx

/-- C9 counterexample: awarding the unearned, known achievement
`case_explorer` (reward 7500) appends TWO earned records (`case_explorer`
and the cascaded `level_10`) and raises total XP by 7550, not by the
achievement's reward exactly once — refuting the claim as stated at this
input. -/
theorem C9_counterexample :
    (award_achievement "case_explorer" "t0" c9State).1 = true ∧
    (award_achievement "case_explorer" "t0" c9State).2.earned_achievements.length = 2 ∧
    (award_achievement "case_explorer" "t0" c9State).2.total_xp = 7550 := by
  decide

/-- C9 (amended): for a known, not-yet-earned achievement id, awarding twice
returns `true` then `false`, the id is recorded as earned, and the second
call leaves the state completely untouched — regardless of any cascaded
level-milestone awards; when additionally no level-milestone achievement
(`level_10`/`level_25`/`level_50`) is awardable in the catalog, the first
call appends exactly one earned record and adds the reward to total XP
exactly once; for an unknown or already-earned id the call returns `false`
without side effects. -/
theorem C9_award_idempotent (achievementId now : String) (s : ProgressState)
    (ach : Achievement)
    (hfind : s.achievements.find? (fun a => a.id = achievementId) = some ach)
    (hnew : achievementId ∉ earnedIds s) :
    (award_achievement achievementId now s).1 = true ∧
    achievementId ∈ earnedIds (award_achievement achievementId now s).2 ∧
    (award_achievement achievementId now
        (award_achievement achievementId now s).2).1 = false ∧
    (award_achievement achievementId now
        (award_achievement achievementId now s).2).2 =
      (award_achievement achievementId now s).2 ∧
    ((∀ m ∈ (["level_10", "level_25", "level_50"] : List String),
        m ∈ earnedIds s ∨ s.achievements.find? (fun a => a.id = m) = none) →
      (award_achievement achievementId now s).2.earned_achievements =
        s.earned_achievements ++ [⟨achievementId, now, ach.xp_reward⟩] ∧
      (award_achievement achievementId now s).2.total_xp = s.total_xp + ach.xp_reward) ∧
    (∀ achievementId' : String,
      s.achievements.find? (fun a => a.id = achievementId') = none ∨
        achievementId' ∈ earnedIds s →
      award_achievement achievementId' now s = (false, s)) := by
  have h8 : (8 : Nat) = 7 + 1 := rfl
  have hfirstT : (award_achievement achievementId now s).1 = true := by
    simp only [award_achievement, h8, awardF, hfind]
    rw [if_neg hnew]
  have hmemRec : (⟨achievementId, now, ach.xp_reward⟩ : UserAchievement) ∈
      (award_achievement achievementId now s).2.earned_achievements := by
    simp only [award_achievement, h8, awardF, hfind]
    rw [if_neg hnew]
    dsimp only
    exact (earnedGrow 7).2 _ _ _ _ (List.mem_append_right _ (by simp))
  have hearned2 : achievementId ∈ earnedIds (award_achievement achievementId now s).2 := by
    simp only [earnedIds, List.mem_map]
    exact ⟨_, hmemRec, rfl⟩
  have hsecond := awardF_noop 8 achievementId now
    (award_achievement achievementId now s).2 (Or.inr hearned2)
  refine ⟨hfirstT, hearned2, ?_, ?_, ?_, ?_⟩
  · simpa [award_achievement] using congrArg Prod.fst hsecond
  · simpa [award_achievement] using congrArg Prod.snd hsecond
  · intro hms
    have hs1ms : ∀ m ∈ (["level_10", "level_25", "level_50"] : List String),
        m ∈ earnedIds { s with earned_achievements :=
          s.earned_achievements ++ [⟨achievementId, now, ach.xp_reward⟩] } ∨
        ({ s with earned_achievements :=
          s.earned_achievements ++ [⟨achievementId, now, ach.xp_reward⟩] }
          : ProgressState).achievements.find? (fun a => a.id = m) = none := by
      intro m hmem
      rcases hms m hmem with h | h
      · left
        simp only [earnedIds, List.map_append] at h ⊢
        exact List.mem_append_left _ h
      · right
        exact h
    have hnc := addXpF_noCascade 6 ach.xp_reward now
      { s with earned_achievements :=
          s.earned_achievements ++ [⟨achievementId, now, ach.xp_reward⟩] } hs1ms
    constructor
    · simp only [award_achievement, h8, awardF, hfind]
      rw [if_neg hnew]
      simpa using hnc.1
    · simp only [award_achievement, h8, awardF, hfind]
      rw [if_neg hnew]
      simpa using hnc.2
  · intro achievementId' h
    exact awardF_noop 8 achievementId' now s h

/-- Witness for C9 (amended) at a concrete input: a one-element catalog with
no milestone achievements (the cascade-free hypothesis of the exactly-once
part is discharged concretely). -/
theorem C9_award_idempotent_witness :
    (award_achievement "first_case" "t1"
      { c9State with achievements :=
          [⟨"first_case", "First Case", "Complete a case", "progression", 25, "bronze", "seed"⟩] }).1
      = true ∧
    (award_achievement "first_case" "t1"
      { c9State with achievements :=
          [⟨"first_case", "First Case", "Complete a case", "progression", 25, "bronze", "seed"⟩] }).2.total_xp
      = 25 := by
  have h := C9_award_idempotent "first_case" "t1"
    { c9State with achievements :=
        [⟨"first_case", "First Case", "Complete a case", "progression", 25, "bronze", "seed"⟩] }
    ⟨"first_case", "First Case", "Complete a case", "progression", 25, "bronze", "seed"⟩
    (by decide) (by decide)
  exact ⟨h.1, (h.2.2.2.2.1 (by decide)).2⟩

/-- C3 counterexample: `_evaluate_lenient("Major Depression", "Major
Depressive Disorder")` is judged INCORRECT with score 0 (the word overlap is
1 of 3, below the 80% threshold), contradicting the claim's example. -/
theorem C3_counterexample :
    (evaluate_lenient "Major Depression" "Major Depressive Disorder").1 = false ∧
    (evaluate_lenient "Major Depression" "Major Depressive Disorder").2.1 = 0 := by
  decide

/-- The IEEE comparison agrees with the exact `4/5` threshold whenever the
correct answer has at most `3002399751580330` words: the rounded quotient
can only cross the double `0.8` from below when `4c - 5o ≥ 1` is drowned by
a denominator above `2^53 / 3`. -/
theorem lenientRatioOk_iff (o c : Nat) (h1 : 1 ≤ c) (h2 : c ≤ 3002399751580330) :
    lenientRatioOk o c ↔ 4 * c ≤ 5 * o := by
  unfold lenientRatioOk
  omega

/-- C3 (amended): lenient evaluation returns correct with score 1.0 exactly
when the trimmed lowercased strings are equal or both word sets are
non-empty and at least 80% of the correct answer's words appear in the
submission — the program's IEEE-double comparison coincides with the exact
80% rule for every correct answer of at most 3·10^15 words (astronomically
beyond any real input); every non-correct outcome scores 0.0.  The example
pair ("Major Depression", "Major Depressive Disorder") falls below the
threshold and is judged incorrect. -/
theorem C3_lenient_rule :
    (∀ u c : String,
      (wordSet (pyLower (pyStrip c))).card ≤ 3002399751580330 →
      (((evaluate_lenient u c).1 = true ∧ (evaluate_lenient u c).2.1 = 1) ↔
        lenientCorrectSpec u c)) ∧
    (∀ u c : String, (evaluate_lenient u c).1 = false → (evaluate_lenient u c).2.1 = 0) ∧
    (evaluate_lenient "Major Depression" "Major Depressive Disorder").1 = false := by
  refine ⟨?_, ?_, by decide⟩
  · intro u c hbound
    have hcondiff :
        (wordSet (pyLower (pyStrip c)) ≠ ∅ ∧ wordSet (pyLower (pyStrip u)) ≠ ∅ ∧
          lenientRatioOk
            ((wordSet (pyLower (pyStrip u)) ∩ wordSet (pyLower (pyStrip c))).card)
            (wordSet (pyLower (pyStrip c))).card) ↔
        (wordSet (pyLower (pyStrip c)) ≠ ∅ ∧ wordSet (pyLower (pyStrip u)) ≠ ∅ ∧
          5 * (wordSet (pyLower (pyStrip u)) ∩ wordSet (pyLower (pyStrip c))).card ≥
            4 * (wordSet (pyLower (pyStrip c))).card) := by
      constructor
      · rintro ⟨hc, hu, hr⟩
        have hc1 : 1 ≤ (wordSet (pyLower (pyStrip c))).card :=
          Finset.card_pos.2 (Finset.nonempty_iff_ne_empty.2 hc)
        exact ⟨hc, hu, (lenientRatioOk_iff _ _ hc1 hbound).1 hr⟩
      · rintro ⟨hc, hu, hr⟩
        have hc1 : 1 ≤ (wordSet (pyLower (pyStrip c))).card :=
          Finset.card_pos.2 (Finset.nonempty_iff_ne_empty.2 hc)
        exact ⟨hc, hu, (lenientRatioOk_iff _ _ hc1 hbound).2 hr⟩
    simp only [evaluate_lenient, lenientCorrectSpec]
    by_cases hex : pyLower (pyStrip u) = pyLower (pyStrip c)
    · simp [hex]
    · rw [if_neg hex]
      rw [if_congr hcondiff rfl rfl]
      by_cases hcond : wordSet (pyLower (pyStrip c)) ≠ ∅ ∧
          wordSet (pyLower (pyStrip u)) ≠ ∅ ∧
          5 * (wordSet (pyLower (pyStrip u)) ∩ wordSet (pyLower (pyStrip c))).card ≥
            4 * (wordSet (pyLower (pyStrip c))).card
      · rw [if_pos hcond]
        simp [hex, hcond]
      · rw [if_neg hcond]
        simp [hex, hcond]
  · intro u c
    simp only [evaluate_lenient]
    split
    · intro h
      exact absurd h (by simp)
    · split
      · intro h
        exact absurd h (by simp)
      · intro _
        rfl

/-- Witness for C3 (amended): the overlap rule judges a reordered exact
phrase correct. -/
theorem C3_lenient_rule_witness :
    (evaluate_lenient "Disorder Depressive Major" "Major Depressive Disorder").1 = true :=
  ((C3_lenient_rule.1 "Disorder Depressive Major" "Major Depressive Disorder"
      (by decide)).mpr
    (by unfold lenientCorrectSpec; decide)).1

theorem similarity_nonneg (d1 d2 : String) : 0 ≤ diagnosis_similarity d1 d2 := by
  simp only [diagnosis_similarity]
  split
  · exact le_refl 0
  · positivity

/-- C5: partial-mode scores always lie in [0,1]; an exact trimmed lowercased
match yields exactly (correct, 1.0) whatever the configuration, category or
similarity terms; any non-exact submission is flagged incorrect even when a
fractional score is awarded. -/
theorem C5_partial_bounds :
    (∀ (cfg : PartialCreditConfig) (u c cat : String),
      0 ≤ ( evaluate_partial cfg u c cat).2.1 ∧ ( evaluate_partial cfg u c cat).2.1 ≤ 1) ∧
    (∀ (cfg : PartialCreditConfig) (u c cat : String),
      pyLower (pyStrip u) = pyLower (pyStrip c) →
      ( evaluate_partial cfg u c cat).1 = true ∧ ( evaluate_partial cfg u c cat).2.1 = 1) ∧
    (∀ (cfg : PartialCreditConfig) (u c cat : String),
      pyLower (pyStrip u) ≠ pyLower (pyStrip c) →
      ( evaluate_partial cfg u c cat).1 = false) := by
  refine ⟨?_, ?_, ?_⟩
  · intro cfg u c cat
    simp only [ evaluate_partial]
    by_cases hex : pyLower (pyStrip u) = pyLower (pyStrip c)
    · rw [if_pos hex]
      norm_num
    · rw [if_neg hex]
      repeat' split
      all_goals
        first
          | exact ⟨le_of_lt (by assumption), min_le_right _ _⟩
          | exact ⟨le_refl _, zero_le_one⟩
  · intro cfg u c cat hex
    simp [ evaluate_partial, hex]
  · intro cfg u c cat hex
    simp only [ evaluate_partial]
    rw [if_neg hex]
    repeat' split
    all_goals rfl

/-- Witness for C5 at a concrete input: an exact match modulo case and
whitespace scores exactly 1.0 and is marked correct. -/
theorem C5_partial_bounds_witness :
    ( evaluate_partial {} " Panic Disorder" "panic disorder " "Anxiety Disorders").1 = true ∧
    ( evaluate_partial {} " Panic Disorder" "panic disorder " "Anxiety Disorders").2.1 = 1 :=
  C5_partial_bounds.2.1 {} " Panic Disorder" "panic disorder " "Anxiety Disorders" (by decide)

/-- C10: for a started session and an in-range ordinal, a second
`record_answer` call for the same ordinal does not raise, replaces the
stored answer and time, leaves other ordinals untouched, and the session is
then indistinguishable from one where only the second answer was recorded —
so `_evaluate_all_questions` (hence `calculate_scores`) evaluates that
question from the last recorded answer only. -/
theorem C10_record_answer_replaces (s : ScoringState) (qs : List StdQuestion)
    (hstarted : s.quiz_questions = some qs) (n : Nat) (hn1 : 1 ≤ n) (hn2 : n ≤ qs.length)
    (a1 a2 : String) (t1 t2 : ℚ) (ts1 ts2 : String) (clock : ℚ) :
    ∃ s1 s2 s3,
      record_answer s n a1 (some t1) clock ts1 = .ok s1 ∧
      record_answer s1 n a2 (some t2) clock ts2 = .ok s2 ∧
      record_answer s n a2 (some t2) clock ts2 = .ok s3 ∧
      s2 = s3 ∧
      s2.user_answers n = some ⟨a2, t2, ts2⟩ ∧
      (∀ m, m ≠ n → s2.user_answers m = s.user_answers m) ∧
      evaluate_all_questions s2 = evaluate_all_questions s3 := by
  have hbound : ¬ (n < 1 ∨ qs.length < n) := by omega
  have h1 : record_answer s n a1 (some t1) clock ts1 = .ok { s with user_answers := fun m => ite (m = n) (some ⟨a1, t1, ts1⟩) (s.user_answers m) } := by
    simp only [record_answer, hstarted]
    rw [if_neg hbound]
  have h2 : record_answer { s with user_answers := fun m => ite (m = n) (some ⟨a1, t1, ts1⟩) (s.user_answers m) } n a2 (some t2) clock ts2 = .ok { s with user_answers := fun m => ite (m = n) (some ⟨a2, t2, ts2⟩) (ite (m = n) (some ⟨a1, t1, ts1⟩) (s.user_answers m)) } := by
    simp only [record_answer, hstarted]
    rw [if_neg hbound]
  have h3 : record_answer s n a2 (some t2) clock ts2 = .ok { s with user_answers := fun m => ite (m = n) (some ⟨a2, t2, ts2⟩) (s.user_answers m) } := by
    simp only [record_answer, hstarted]
    rw [if_neg hbound]
  have hfun : (fun m => ite (m = n) (some (AnswerRecord.mk a2 t2 ts2)) (ite (m = n) (some ⟨a1, t1, ts1⟩) (s.user_answers m))) = (fun m => ite (m = n) (some (AnswerRecord.mk a2 t2 ts2)) (s.user_answers m)) := by
    funext m
    by_cases hm : m = n <;> simp [hm]
  have hstates : ({ s with user_answers := fun m => ite (m = n) (some ⟨a2, t2, ts2⟩) (ite (m = n) (some ⟨a1, t1, ts1⟩) (s.user_answers m)) } : ScoringState) = { s with user_answers := fun m => ite (m = n) (some ⟨a2, t2, ts2⟩) (s.user_answers m) } := by
    rw [hfun]
  refine ⟨_, _, _, h1, h2, h3, hstates, ?_, ?_, congrArg _ hstates⟩
  · simp
  · intro m hm
    simp [hm]

/-- Witness for C10 at a concrete one-question session. -/
theorem C10_record_answer_replaces_witness :
    ∃ s1 s2 s3,
      record_answer w10Session 1 "A" (some 3) 0 "t1" = .ok s1 ∧
      record_answer s1 1 "B" (some 5) 0 "t2" = .ok s2 ∧
      record_answer w10Session 1 "B" (some 5) 0 "t2" = .ok s3 ∧
      s2 = s3 ∧
      s2.user_answers 1 = some ⟨"B", 5, "t2"⟩ ∧
      (∀ m, m ≠ 1 → s2.user_answers m = w10Session.user_answers m) ∧
      evaluate_all_questions s2 = evaluate_all_questions s3 :=
  C10_record_answer_replaces w10Session [w10Question] rfl 1 (by decide) (by decide)
    "A" "B" 3 5 "t1" "t2" 0

/-! ## Structural lemmas about question construction -/

theorem buildStandardQuestions_length
    (progressOpt : Option ProgressState) (byCat : List (String × List String))
    (numChoices : Nat) (dm bx ta : Bool) :
    ∀ (cases : List Case) (idx : Nat) (r : Rng),
      (buildStandardQuestions progressOpt byCat numChoices dm bx ta cases idx r).1.length =
        cases.length := by
  intro cases
  induction cases with
  | nil => intro idx r; rfl
  | cons c rest ih =>
    intro idx r
    simp only [buildStandardQuestions, List.length_cons]
    rw [ih]

theorem renumberQuestions_length (qs : List Question) :
    (renumberQuestions qs).length = qs.length := by
  simp [renumberQuestions]

/-- C7: `generate_quiz` raises exactly when the filtered case pool is empty;
every successful quiz reports `total_questions` equal to the emitted question
count; and in the standard mode (no user progress, no multi-case matching) a
non-empty pool smaller than the request yields exactly
`min(requested, available)` questions. -/
theorem C7_empty_pool_error (gen : GeneratorState) (config : QuizConfig)
    (ambient : Rng) (now : String) :
    ((∃ e, generate_quiz gen config ambient now = .error e) ↔
      get_filtered_cases gen.cases (effectiveConfig gen.user_progress config) = []) ∧
    (∀ q, generate_quiz gen config ambient now = .ok q →
      q.quiz_metadata.total_questions = q.questions.length) ∧
    (gen.user_progress = none → config.multi_case_matching.getD false = false →
      ∀ c cs, get_filtered_cases gen.cases (effectiveConfig gen.user_progress config) = c :: cs →
      ∀ q, generate_quiz gen config ambient now = .ok q →
        q.questions.length = min (config.num_questions.getD 10) (c :: cs).length) := by
  refine ⟨?_, ?_, ?_⟩
  · cases hf : get_filtered_cases gen.cases (effectiveConfig gen.user_progress config) with
    | nil => simp [generate_quiz, genQuizCore, hf]
    | cons c cs => simp [generate_quiz, genQuizCore, hf]
  · intro q hq
    cases hc : genQuizCore gen config ambient with
    | error e => rw [generate_quiz, hc] at hq; exact absurd hq (by simp)
    | ok res =>
      rw [generate_quiz, hc] at hq
      simp only [Except.ok.injEq] at hq
      subst hq
      rfl
  · intro hpnone hmcm c cs hf q hq
    have hmin : ¬ ((c :: cs).length <
        min (config.num_questions.getD 10) (c :: cs).length) :=
      Nat.not_lt.mpr (Nat.min_le_right _ _)
    simp only [generate_quiz, genQuizCore, hpnone, hmcm] at hq
    simp at hq
    rw [hpnone] at hf
    rw [hf] at hq
    simp only [Except.ok.injEq] at hq
    subst hq
    by_cases hsh : config.shuffle.getD true = true
    · simp only [hsh, if_true, renumberQuestions_length, pyShuffle_length,
        buildStandardQuestions_length, pySample_length]
      omega
    · simp only [hsh, Bool.false_eq_true, if_false, buildStandardQuestions_length,
        pySample_length]
      omega

theorem C7_empty_pool_error_witness :
    (getOkQuiz (generate_quiz demoGen c7Config (mkRng 0) "t") emptyQuizData).questions.length = 3 :=
  (C7_empty_pool_error demoGen c7Config (mkRng 0) "t").2.2 rfl rfl demoCase1
    [demoCase2, demoCase3] (by decide)
    (getOkQuiz (generate_quiz demoGen c7Config (mkRng 0) "t") emptyQuizData) rfl

theorem genQuizCore_numChoices (gen : GeneratorState) (config : QuizConfig) (ambient : Rng)
    (res : List Question × QuizConfig × Nat × QuizAdaptiveFeatures)
    (h : genQuizCore gen config ambient = Except.ok res) :
    res.2.2.1 = config.num_choices.getD 4 := by
  simp only [genQuizCore] at h
  cases hf : get_filtered_cases gen.cases (effectiveConfig gen.user_progress config) with
  | nil => rw [hf] at h; exact absurd h (by simp)
  | cons c cs =>
    rw [hf] at h
    simp only [Except.ok.injEq] at h
    subst h
    rfl

/-- C4 counterexample: `generate_quiz` itself performs no clamping — a
configured `num_choices` of 7 flows straight through, and the produced
question carries seven options. -/
theorem C4_counterexample :
    generate_quiz demoGen c4Config (mkRng 0) "t" = Except.ok c4Result ∧
    c4Result.quiz_metadata.num_choices = 7 ∧
    ∀ qu ∈ c4Result.questions, (questionOptionTexts qu).length = 7 := by
  refine ⟨rfl, rfl, by decide⟩

/-- C4: the clamps live in the REST route (`src/api/quiz.py`), not in
`generate_quiz`: the route's choice count always lands in [2,6] and its
question count never exceeds 50, while `generate_quiz` reports exactly the
configured (unclamped) choice count in its metadata. -/
theorem C4_api_clamping (requested rq : Option Nat) (gen : GeneratorState)
    (config : QuizConfig) (ambient : Rng) (now : String) :
    2 ≤ apiNumChoices requested ∧ apiNumChoices requested ≤ 6 ∧
    apiNumQuestions rq ≤ 50 ∧
    (∀ q, generate_quiz gen config ambient now = Except.ok q →
      q.quiz_metadata.num_choices = config.num_choices.getD 4) := by
  refine ⟨?_, ?_, ?_, ?_⟩
  · cases requested with
    | none => simp [apiNumChoices]
    | some v => simp only [apiNumChoices, Option.getD_some]; omega
  · cases requested with
    | none => simp [apiNumChoices]
    | some v => simp only [apiNumChoices, Option.getD_some]; omega
  · cases rq with
    | none => simp [apiNumQuestions]
    | some v => simp only [apiNumQuestions, Option.getD_some]; omega
  · intro q hq
    cases hc : genQuizCore gen config ambient with
    | error e => rw [generate_quiz, hc] at hq; exact absurd hq (by simp)
    | ok res =>
      rw [generate_quiz, hc] at hq
      simp only [Except.ok.injEq] at hq
      subst hq
      exact genQuizCore_numChoices gen config ambient res hc

theorem C4_api_clamping_witness :
    2 ≤ apiNumChoices (some 99) ∧ apiNumChoices (some 99) ≤ 6 ∧
    apiNumQuestions (some 999) ≤ 50 ∧
    c4Result.quiz_metadata.num_choices = c4Config.num_choices.getD 4 := by
  have h := C4_api_clamping (some 99) (some 999) demoGen c4Config (mkRng 0) "t"
  exact ⟨h.1, h.2.1, h.2.2.1, h.2.2.2 c4Result rfl⟩

/-- C1 counterexample: two calls with the same seed, pools, configuration and
ambient generator state produce the same questions but different Quiz
objects, because `generated_at` embeds the wall-clock timestamp. -/
theorem C1_counterexample :
    generate_quiz demoGen c1Config (mkRng 0) "2024-01-01T00:00:00" = Except.ok c1Quiz1 ∧
    generate_quiz demoGen c1Config (mkRng 0) "2024-01-01T00:00:01" = Except.ok c1Quiz2 ∧
    c1Quiz1 ≠ c1Quiz2 ∧
    c1Quiz1.questions = c1Quiz2.questions := by
  exact ⟨rfl, rfl, by decide, rfl⟩

/-- C1: with a fixed seed, generation is deterministic up to the embedded
timestamp: the ambient generator state is immaterial, and two runs at
different clock readings agree on every question and on every metadata field
except `generated_at`. -/
theorem C1_seed_determinism (gen : GeneratorState) (config : QuizConfig)
    (amb1 amb2 : Rng) (now now2 : String) (s : Nat) (hs : config.seed = some s) :
    generate_quiz gen config amb1 now = generate_quiz gen config amb2 now ∧
    (∀ q1 q2, generate_quiz gen config amb1 now = Except.ok q1 →
      generate_quiz gen config amb1 now2 = Except.ok q2 →
      q1.questions = q2.questions ∧
      q1.quiz_metadata.total_questions = q2.quiz_metadata.total_questions ∧
      q1.quiz_metadata.num_choices = q2.quiz_metadata.num_choices ∧
      q1.quiz_metadata.configuration = q2.quiz_metadata.configuration ∧
      q1.quiz_metadata.adaptive_features = q2.quiz_metadata.adaptive_features) := by
  constructor
  · have hcore : genQuizCore gen config amb1 = genQuizCore gen config amb2 := by
      simp only [genQuizCore, hs]
    rw [generate_quiz, generate_quiz, hcore]
  · intro q1 q2 h1 h2
    cases hc : genQuizCore gen config amb1 with
    | error e => rw [generate_quiz, hc] at h1; exact absurd h1 (by simp)
    | ok res =>
      rw [generate_quiz, hc] at h1
      rw [generate_quiz, hc] at h2
      simp only [Except.ok.injEq] at h1 h2
      subst h1
      subst h2
      exact ⟨rfl, rfl, rfl, rfl, rfl⟩

theorem C1_seed_determinism_witness :
    c1Config.seed = some 42 ∧
    generate_quiz demoGen c1Config (mkRng 0) "2024-01-01T00:00:00" =
      generate_quiz demoGen c1Config (mkRng 7) "2024-01-01T00:00:00" ∧
    c1Quiz1.questions = c1Quiz2.questions := by
  have h := C1_seed_determinism demoGen c1Config (mkRng 0) (mkRng 7)
    "2024-01-01T00:00:00" "2024-01-01T00:00:01" 42 rfl
  exact ⟨rfl, h.1, (h.2 c1Quiz1 c1Quiz2 rfl rfl).1⟩

theorem addSpecifiersGo_none (category ageGroup : String)
    (h : specifier_map category ageGroup = none) :
    ∀ (opts : List String) (r : Rng), (addSpecifiersGo category ageGroup opts r).1 = opts := by
  intro opts
  induction opts with
  | nil => intro r; rfl
  | cons o rest ih =>
    intro r
    simp only [addSpecifiersGo, h]
    rw [ih]

theorem add_clinical_specifiers_none (opts : List String) (c : Case) (r : Rng)
    (h : specifier_map (c.category.getD "unknown") (c.age_group.getD "adult") = none) :
    (add_clinical_specifiers opts c r).1 = opts := by
  simp only [add_clinical_specifiers]
  exact addSpecifiersGo_none _ _ h opts r

theorem pyChoice_mem (l : List α) (dflt : α) (r : Rng) (h : l ≠ []) :
    (pyChoice l dflt r).1 ∈ l := by
  have hlen : 0 < l.length := List.length_pos.2 h
  have hidx : (r.randBelow l.length).1 < l.length := by
    simp only [Rng.randBelow]
    exact Nat.mod_lt _ hlen
  simp only [pyChoice]
  rw [List.getD_eq_getElem?_getD, List.getElem?_eq_getElem hidx, Option.getD_some]
  exact List.getElem_mem hidx

theorem specifier_map_ne_nil (category ageGroup : String) (specs : List String)
    (h : specifier_map category ageGroup = some specs) : specs ≠ [] := by
  unfold specifier_map at h
  repeat' split at h
  all_goals
    first
      | (injection h with h; subst h; simp)
      | exact absurd h (by simp)

theorem addSpecifiersGo_forall2 (category ageGroup : String) :
    ∀ (opts : List String) (r : Rng),
      List.Forall₂ (decoratesTo (specifier_map category ageGroup)) opts
        (addSpecifiersGo category ageGroup opts r).1 := by
  intro opts
  induction opts with
  | nil => intro r; exact List.Forall₂.nil
  | cons o rest ih =>
    intro r
    simp only [addSpecifiersGo]
    cases hsm : specifier_map category ageGroup with
    | none =>
      rw [hsm] at ih
      exact List.Forall₂.cons (Or.inl rfl) (ih _)
    | some specs =>
      rw [hsm] at ih
      dsimp only
      split
      · refine List.Forall₂.cons ?_ (ih _)
        right
        exact ⟨specs, rfl, (pyChoice specs "" (r.draw30).2).1,
          pyChoice_mem specs "" _ (specifier_map_ne_nil category ageGroup specs hsm), rfl⟩
      · exact List.Forall₂.cons (Or.inl rfl) (ih _)

theorem mkOptionObjects_texts (opts : List String) :
    (mkOptionObjects opts).map (fun o => o.text) = opts := by
  simp only [mkOptionObjects, List.map_map]
  have hc : ((fun o : OptionObj => o.text) ∘ fun p : Nat × String => (⟨p.1, p.2⟩ : OptionObj)) =
      Prod.snd := by
    funext p
    rfl
  rw [hc, List.enum_map_snd]

theorem addGenerics_full (correct : String) (n fuel : Nat) (acc : List String)
    (h : ¬ acc.length < n) : addGenerics correct n fuel acc = acc := by
  cases fuel with
  | zero => rfl
  | succ f => rw [addGenerics, if_neg h]

theorem distractors_phase2 (correct : String) (n : Nat) (d1 rem : List String) (r : Rng)
    (hd1N : d1.Nodup) (hd1ne : correct ∉ d1)
    (hremN : rem.Nodup) (hremNe : ∀ x ∈ rem, x ≠ correct)
    (hremD : ∀ x ∈ rem, x ∉ d1)
    (hlen : n - d1.length ≤ rem.length) (hle : d1.length ≤ n) :
    ((addGenerics correct n 5 (d1 ++ (pyShuffle rem r).1.take (n - d1.length))).take n).Nodup ∧
    correct ∉ (addGenerics correct n 5 (d1 ++ (pyShuffle rem r).1.take (n - d1.length))).take n ∧
    ((addGenerics correct n 5 (d1 ++ (pyShuffle rem r).1.take (n - d1.length))).take n).length
      = n := by
  have hshperm := pyShuffle_perm rem r
  have hshlen : (pyShuffle rem r).1.length = rem.length := hshperm.length_eq
  have htlen : ((pyShuffle rem r).1.take (n - d1.length)).length = n - d1.length := by
    rw [List.length_take, hshlen]
    omega
  have hd2len : (d1 ++ (pyShuffle rem r).1.take (n - d1.length)).length = n := by
    rw [List.length_append, htlen]
    omega
  have htmem : ∀ x ∈ (pyShuffle rem r).1.take (n - d1.length), x ∈ rem := by
    intro x hx
    exact hshperm.mem_iff.1 (List.mem_of_mem_take hx)
  have hd2N : (d1 ++ (pyShuffle rem r).1.take (n - d1.length)).Nodup := by
    refine List.Nodup.append hd1N ?_ ?_
    · exact (List.take_sublist _ _).nodup (hshperm.nodup_iff.2 hremN)
    · intro a ha hat
      exact hremD a (htmem a hat) ha
  have hgen : addGenerics correct n 5 (d1 ++ (pyShuffle rem r).1.take (n - d1.length)) =
      d1 ++ (pyShuffle rem r).1.take (n - d1.length) :=
    addGenerics_full correct n 5 _ (by omega)
  have htake : (d1 ++ (pyShuffle rem r).1.take (n - d1.length)).take n =
      d1 ++ (pyShuffle rem r).1.take (n - d1.length) :=
    List.take_of_length_le (by omega)
  rw [hgen, htake]
  refine ⟨hd2N, ?_, hd2len⟩
  intro hc
  rcases List.mem_append.1 hc with h | h
  · exact hd1ne h
  · exact hremNe correct (htmem _ h) rfl

theorem generate_distractors_spec (correct cat : String)
    (byCat : List (String × List String)) (n : Nat) (r : Rng)
    (hnodup : (catLookup byCat cat ++
      (byCat.filter (fun p => p.1 ≠ cat)).flatMap (fun p => p.2)).Nodup)
    (hsupply : n ≤ ((catLookup byCat cat).filter (fun d => d ≠ correct)).length +
      (((byCat.filter (fun p => p.1 ≠ cat)).flatMap (fun p => p.2)).filter
        (fun d => d ≠ correct)).length) :
    (generate_distractors correct cat byCat n r).1.Nodup ∧
    correct ∉ (generate_distractors correct cat byCat n r).1 ∧
    (generate_distractors correct cat byCat n r).1.length = n := by
  have hbN : (catLookup byCat cat).Nodup := (List.nodup_append.1 hnodup).1
  have haN : ((byCat.filter (fun p => p.1 ≠ cat)).flatMap (fun p => p.2)).Nodup :=
    (List.nodup_append.1 hnodup).2.1
  have hdisj := (List.nodup_append.1 hnodup).2.2
  have hsameN : ((catLookup byCat cat).filter (fun d => d ≠ correct)).Nodup := hbN.filter _
  have hshperm := pyShuffle_perm ((catLookup byCat cat).filter (fun d => d ≠ correct)) r
  have hshN : (pyShuffle ((catLookup byCat cat).filter (fun d => d ≠ correct)) r).1.Nodup :=
    hshperm.nodup_iff.2 hsameN
  have hd1sub : ∀ (m : Nat), ∀ x ∈ (pyShuffle ((catLookup byCat cat).filter
      (fun d => d ≠ correct)) r).1.take m,
      x ∈ (catLookup byCat cat).filter (fun d => d ≠ correct) := by
    intro m x hx
    exact hshperm.mem_iff.1 (List.mem_of_mem_take hx)
  have hd1ne : ∀ (m : Nat), correct ∉ (pyShuffle ((catLookup byCat cat).filter
      (fun d => d ≠ correct)) r).1.take m := by
    intro m hc
    have hcf := (List.mem_filter.1 (hd1sub m correct hc)).2
    simp at hcf
  simp only [generate_distractors]
  split
  case isTrue hlt =>
    dsimp only
    have hvac : ((byCat.filter (fun p => p.1 ≠ cat)).flatMap (fun p => p.2)).filter
        (fun d => d ≠ correct && d ∉ (pyShuffle ((catLookup byCat cat).filter
          (fun d => d ≠ correct)) r).1.take n) =
        ((byCat.filter (fun p => p.1 ≠ cat)).flatMap (fun p => p.2)).filter
        (fun d => d ≠ correct) := by
      refine List.filter_congr ?_
      intro x hx
      have hxn : x ∉ (pyShuffle ((catLookup byCat cat).filter
          (fun d => d ≠ correct)) r).1.take n := by
        intro hmem
        have hxb : x ∈ catLookup byCat cat := (List.mem_filter.1 (hd1sub n x hmem)).1
        exact hdisj hxb hx
      simp only [decide_eq_true hxn, Bool.and_true]
    rw [hvac]
    have e1 : ((pyShuffle ((catLookup byCat cat).filter (fun d => d ≠ correct)) r).1.take
        n).length = min n ((catLookup byCat cat).filter (fun d => d ≠ correct)).length := by
      rw [List.length_take, hshperm.length_eq]
    refine distractors_phase2 correct n _ _ _ ?_ ?_ ?_ ?_ ?_ ?_ ?_
    · exact (List.take_sublist _ _).nodup hshN
    · exact hd1ne n
    · exact haN.filter _
    · intro x hx
      have hxf := (List.mem_filter.1 hx).2
      exact of_decide_eq_true hxf
    · intro x hx hmem
      have hxb : x ∈ catLookup byCat cat := (List.mem_filter.1 (hd1sub n x hmem)).1
      exact hdisj hxb (List.mem_filter.1 hx).1
    · omega
    · exact List.length_take_le _ _
  case isFalse hge =>
    dsimp only
    rw [List.take_take, Nat.min_self]
    refine ⟨(List.take_sublist _ _).nodup hshN, hd1ne n, ?_⟩
    have hub := List.length_take_le n (pyShuffle ((catLookup byCat cat).filter
      (fun d => d ≠ correct)) r).1
    omega

/-- C6 counterexample: with a diagnosis catalog carrying a duplicated name,
`generate_quiz` emits a question whose three options repeat a distractor
label — the source never deduplicates the first-phase same-category pool. -/
theorem C6_counterexample :
    generate_quiz c6Gen c6Config (mkRng 0) "t" = Except.ok c6Quiz ∧
    c6Quiz.questions.length = 1 ∧
    ∀ qu ∈ c6Quiz.questions,
      (questionOptionTexts qu).length = 3 ∧ ¬ (questionOptionTexts qu).Nodup := by
  refine ⟨rfl, rfl, by decide⟩

/-- C6 (amended): provided the catalog names reachable from the question are
pairwise distinct and supply at least `num_choices − 1` names besides the
correct diagnosis, every standard question built by `_create_question` shows
exactly `num_choices` options, and those displayed texts are a permutation
of per-label decorations (identity, or one comma-appended clinical
specifier, per `_add_clinical_specifiers`) of a pairwise-distinct base label
list in which the case's true diagnosis occurs exactly once.  Over a catalog
with duplicate names the uniqueness guarantee fails. -/
theorem C6_distractor_uniqueness (c : Case) (byCat : List (String × List String))
    (numChoices questionNumber : Nat) (r : Rng)
    (h1 : 1 ≤ numChoices)
    (hnodup : (catLookup byCat (c.category.getD "Unknown") ++
      (byCat.filter (fun p => p.1 ≠ c.category.getD "Unknown")).flatMap
        (fun p => p.2)).Nodup)
    (hsupply : numChoices - 1 ≤
      ((catLookup byCat (c.category.getD "Unknown")).filter
        (fun d => d ≠ c.diagnosis)).length +
      (((byCat.filter (fun p => p.1 ≠ c.category.getD "Unknown")).flatMap
        (fun p => p.2)).filter (fun d => d ≠ c.diagnosis)).length) :
    ((create_question c byCat numChoices questionNumber r).1.options.map
      (fun o => o.text)).length = numChoices ∧
    List.Perm
      ((create_question c byCat numChoices questionNumber r).1.options.map
        (fun o => o.text))
      (add_clinical_specifiers
        (c.diagnosis :: (generate_distractors c.diagnosis (c.category.getD "Unknown") byCat
          (numChoices - 1) r).1) c
        (generate_distractors c.diagnosis (c.category.getD "Unknown") byCat
          (numChoices - 1) r).2).1 ∧
    List.Forall₂
      (decoratesTo (specifier_map (c.category.getD "unknown") (c.age_group.getD "adult")))
      (c.diagnosis :: (generate_distractors c.diagnosis (c.category.getD "Unknown") byCat
        (numChoices - 1) r).1)
      (add_clinical_specifiers
        (c.diagnosis :: (generate_distractors c.diagnosis (c.category.getD "Unknown") byCat
          (numChoices - 1) r).1) c
        (generate_distractors c.diagnosis (c.category.getD "Unknown") byCat
          (numChoices - 1) r).2).1 ∧
    (c.diagnosis :: (generate_distractors c.diagnosis (c.category.getD "Unknown") byCat
      (numChoices - 1) r).1).Nodup ∧
    (c.diagnosis :: (generate_distractors c.diagnosis (c.category.getD "Unknown") byCat
      (numChoices - 1) r).1).count c.diagnosis = 1 ∧
    (c.diagnosis :: (generate_distractors c.diagnosis (c.category.getD "Unknown") byCat
      (numChoices - 1) r).1).length = numChoices := by
  have hgd := generate_distractors_spec c.diagnosis (c.category.getD "Unknown") byCat
    (numChoices - 1) r hnodup hsupply
  have hlen := hgd.2.2
  have hf2 := addSpecifiersGo_forall2 (c.category.getD "unknown") (c.age_group.getD "adult")
    (c.diagnosis :: (generate_distractors c.diagnosis (c.category.getD "Unknown") byCat
      (numChoices - 1) r).1)
    (generate_distractors c.diagnosis (c.category.getD "Unknown") byCat
      (numChoices - 1) r).2
  refine ⟨?_, ?_, hf2, ?_, ?_, ?_⟩
  · simp only [create_question, mkOptionObjects_texts]
    rw [(pyShuffle_perm _ _).length_eq]
    simp only [add_clinical_specifiers]
    rw [← hf2.length_eq]
    simp only [List.length_cons]
    omega
  · simp only [create_question, mkOptionObjects_texts]
    exact pyShuffle_perm _ _
  · exact List.nodup_cons.2 ⟨hgd.2.1, hgd.1⟩
  · rw [List.count_cons_self, List.count_eq_zero.2 hgd.2.1]
  · simp only [List.length_cons]
    omega

theorem C6_distractor_uniqueness_witness :
    ((create_question c6wCase c6wByCat 3 1 (mkRng 0)).1.options.map
      (fun o => o.text)).length = 3 ∧
    (c6wCase.diagnosis :: (generate_distractors c6wCase.diagnosis
      (c6wCase.category.getD "Unknown") c6wByCat (3 - 1) (mkRng 0)).1).Nodup ∧
    (c6wCase.diagnosis :: (generate_distractors c6wCase.diagnosis
      (c6wCase.category.getD "Unknown") c6wByCat (3 - 1) (mkRng 0)).1).count
      c6wCase.diagnosis = 1 := by
  have h := C6_distractor_uniqueness c6wCase c6wByCat 3 1 (mkRng 0)
    (by decide) (by decide) (by decide)
  exact ⟨h.1, h.2.2.2.1, h.2.2.2.2.1⟩
